import Mathlib

/-
  Verification development for the Capitalism-Tycoon simulation core
  (Rust sources under src/: product.rs, recipe.rs, economy.rs, store.rs,
  factory.rs, loan.rs, stock.rs, competitor.rs, player.rs, game.rs).

  Modelling conventions of this shallow embedding:
  * `f64` is modelled by `Rat`: every arithmetic step mirrors the source
    expression, with exact rational arithmetic in place of IEEE doubles.
  * `u32`/`u64`/`usize` are modelled by `Nat`; `u64` wrapping arithmetic is
    made explicit as `% 2^64`; the cast `expr as u32` on a nonnegative
    float is truncation, modelled by `Rat.floor` + `Int.toNat` (the values
    involved never reach the u32 saturation bound).
  * `HashMap` is modelled by an insertion-ordered association list
    `List (key × value)`; the source iterates hash maps in an unspecified
    order, the model fixes insertion order.
  * `(day as f64 * 0.125).sin()` has no computable counterpart in the
    kernel, so the economic-trend value is passed to the day tick as an
    explicit `Rat` parameter `trend`; every theorem below holds for every
    value of that parameter.
  * `format!` strings that interpolate numbers are modelled by their fixed
    text; the numeric payload of a message is irrelevant to every claim.
  * The player's stock `portfolio` field of player.rs is named `holdings`
    here; everything else keeps the source names.
-/

namespace CapTycoon

/-- 2^64, the modulus of Rust's wrapping u64 arithmetic. -/
def U64MOD : Nat := 18446744073709551616

/-- Truncation of a nonnegative rational to a natural number (`expr as u32`). -/
def ratFloorNat (q : Rat) : Nat := (Int.floor q).toNat

/-- Rust `f64::clamp(lo, hi)`: `if x < lo then lo else if x > hi then hi else x`. -/
def fclamp (x lo hi : Rat) : Rat := if x < lo then lo else if x > hi then hi else x

/-! ## product.rs -/

inductive ProductType where
  | RawMaterial
  | RetailGood
  | ManufacturedGood
deriving DecidableEq

inductive Category where
  | Food
  | Electronics
  | Clothing
  | RawMaterial
  | Furniture
deriving DecidableEq

structure Product where
  id : Nat
  name : String
  base_price : Rat
  category : Category
  product_type : ProductType
deriving DecidableEq

def ProductType.is_raw_material : ProductType → Bool
  | ProductType.RawMaterial => true
  | _ => false

/-! ## recipe.rs -/

structure RecipeIngredient where
  product_id : Nat
  quantity : Nat
deriving DecidableEq

structure Recipe where
  id : Nat
  name : String
  ingredients : List RecipeIngredient
  output_product_id : Nat
  output_quantity : Nat
  production_days : Nat
deriving DecidableEq

/-! ## economy.rs -/

inductive EconomicState where
  | Collapse
  | Recession
  | Standard
  | Growth
  | Booming
  | Prosperity
deriving DecidableEq

def EconomicState.interest_rate : EconomicState → Rat
  | EconomicState.Collapse => 0.15
  | EconomicState.Recession => 0.10
  | EconomicState.Standard => 0.06
  | EconomicState.Growth => 0.05
  | EconomicState.Booming => 0.04
  | EconomicState.Prosperity => 0.03

def EconomicState.sales_multiplier : EconomicState → Rat
  | EconomicState.Collapse => 0.5
  | EconomicState.Recession => 0.7
  | EconomicState.Standard => 1.0
  | EconomicState.Growth => 1.2
  | EconomicState.Booming => 1.4
  | EconomicState.Prosperity => 1.6

def EconomicState.price_multiplier : EconomicState → Rat
  | EconomicState.Collapse => 0.8
  | EconomicState.Recession => 0.9
  | EconomicState.Standard => 1.0
  | EconomicState.Growth => 1.05
  | EconomicState.Booming => 1.1
  | EconomicState.Prosperity => 1.15

def EconomicState.transition_up : EconomicState → Option EconomicState
  | EconomicState.Collapse => some EconomicState.Recession
  | EconomicState.Recession => some EconomicState.Standard
  | EconomicState.Standard => some EconomicState.Growth
  | EconomicState.Growth => some EconomicState.Booming
  | EconomicState.Booming => some EconomicState.Prosperity
  | EconomicState.Prosperity => none

def EconomicState.transition_down : EconomicState → Option EconomicState
  | EconomicState.Collapse => none
  | EconomicState.Recession => some EconomicState.Collapse
  | EconomicState.Standard => some EconomicState.Recession
  | EconomicState.Growth => some EconomicState.Standard
  | EconomicState.Booming => some EconomicState.Growth
  | EconomicState.Prosperity => some EconomicState.Booming

def EconomicState.name : EconomicState → String
  | EconomicState.Collapse => "Collapse"
  | EconomicState.Recession => "Recession"
  | EconomicState.Standard => "Standard"
  | EconomicState.Growth => "Growth"
  | EconomicState.Booming => "Booming"
  | EconomicState.Prosperity => "Prosperity"

structure Market where
  wholesale_prices : List (Nat × Rat)
  category_demand : List (Category × Rat)
  day_seed : Nat
  economic_state : EconomicState
  economic_trend : Rat
deriving DecidableEq

def Market.get_wholesale_price (m : Market) (product_id : Nat) : Option Rat :=
  (List.lookup product_id m.wholesale_prices).map
    (fun base_price => base_price * m.economic_state.price_multiplier)

def Market.get_base_wholesale_price (m : Market) (product_id : Nat) : Option Rat :=
  List.lookup product_id m.wholesale_prices

/-- `Market::get_random_value`: one LCG-style draw from the current day seed. -/
def Market.get_random_value (m : Market) : Rat :=
  let x := (m.day_seed * 48271 + 1) % U64MOD
  ((x % 10000 : Nat) : Rat) / 10000

/-- `Market::get_daily_variance`: variance multiplier in [0.8, 1.2] from the day seed. -/
def Market.get_daily_variance (m : Market) : Rat :=
  let x := (m.day_seed * 1103515245 + 12345) % U64MOD
  let normalized := ((x % 1000 : Nat) : Rat) / 1000
  0.8 + normalized * 0.4

/-- `Market::update_economy` with the source's `(day * 0.125).sin()` value
passed in as the parameter `trend` (see the file header). -/
def Market.update_economy (m : Market) (trend : Rat) : Market × Option String :=
  let old_state := m.economic_state
  let m1 : Market := { m with economic_trend := trend }
  let up0 : Rat := if 0 < trend then 0.04 + trend * 0.06 else 0.04
  let down0 : Rat := if 0 < trend then 0.04 else 0.04 + (-trend) * 0.06
  let up_chance : Rat :=
    match m1.economic_state with
    | EconomicState.Collapse => up0 + 0.10
    | EconomicState.Prosperity => 0
    | _ => up0
  let down_chance : Rat :=
    match m1.economic_state with
    | EconomicState.Collapse => 0
    | EconomicState.Prosperity => down0 + 0.10
    | _ => down0
  let roll := m1.get_random_value
  let new_state :=
    if roll < up_chance then (m1.economic_state.transition_up).getD m1.economic_state
    else if roll < up_chance + down_chance then
      (m1.economic_state.transition_down).getD m1.economic_state
    else m1.economic_state
  let m2 : Market := { m1 with economic_state := new_state }
  if m2.economic_state ≠ old_state then
    let direction :=
      if old_state.sales_multiplier < m2.economic_state.sales_multiplier then "improved"
      else "worsened"
    (m2, some ("Economy " ++ direction ++ " to " ++ m2.economic_state.name ++ "!"))
  else (m2, none)

/-- `Market::advance_day`: reseed from the day number, then update the economy. -/
def Market.advance_day (m : Market) (day : Nat) (trend : Rat) : Market × Option String :=
  let m1 : Market := { m with day_seed := (day * 31337 + 42) % U64MOD }
  m1.update_economy trend

/-- `Market::calculate_sales` (economy.rs lines 240-274). -/
def Market.calculate_sales (m : Market) (product : Product) (retail_price : Rat)
    (available_quantity customer_count : Nat) : Nat :=
  let base_price := product.base_price
  let category_multiplier := (List.lookup product.category m.category_demand).getD 1.0
  let price_ratio := (retail_price - base_price) / base_price
  let price_factor := fclamp (1 - price_ratio * 0.5) 0.0 2.0
  let economic_multiplier := m.economic_state.sales_multiplier
  let base_demand := 0.1 * category_multiplier * economic_multiplier
  let expected_sales := ratFloorNat ((customer_count : Rat) * base_demand * price_factor)
  let variance := m.get_daily_variance
  let adjusted_sales := ratFloorNat ((expected_sales : Rat) * variance)
  min adjusted_sales available_quantity

def Market.calculate_markup (wholesale retail : Rat) : Rat :=
  if 0 < wholesale then ((retail - wholesale) / wholesale) * 100 else 0

def Market.suggest_retail_price (wholesale markup_percent : Rat) : Rat :=
  wholesale * (1 + markup_percent / 100)

/-! ## store.rs -/

structure InventoryItem where
  product_id : Nat
  quantity : Nat
  retail_price : Rat
deriving DecidableEq

structure Employee where
  name : String
  salary : Rat
deriving DecidableEq

def Employee.new (name : String) : Employee := { name := name, salary := 50 }

structure Store where
  id : Nat
  name : String
  inventory : List (Nat × InventoryItem)
  daily_customers : Nat
  employees : List Employee
  daily_rent : Rat
deriving DecidableEq

def Store.new (id : Nat) (name : String) : Store :=
  { id := id, name := name, inventory := [], daily_customers := 50,
    employees := [], daily_rent := 100 }

/-- `inventory.get_mut(&pid)` hit: add to quantity; miss: insert a fresh item. -/
def invAdd (product_id quantity : Nat) (retail_price : Rat) :
    List (Nat × InventoryItem) → List (Nat × InventoryItem)
  | [] => [(product_id, { product_id := product_id, quantity := quantity,
                          retail_price := retail_price })]
  | (k, item) :: rest =>
    if k = product_id then (k, { item with quantity := item.quantity + quantity }) :: rest
    else (k, item) :: invAdd product_id quantity retail_price rest

def Store.add_inventory (s : Store) (product_id quantity : Nat) (retail_price : Rat) : Store :=
  { s with inventory := invAdd product_id quantity retail_price s.inventory }

def invSell (product_id quantity : Nat) :
    List (Nat × InventoryItem) → Option Rat × List (Nat × InventoryItem)
  | [] => (none, [])
  | (k, item) :: rest =>
    if k = product_id then
      let actual_quantity := min quantity item.quantity
      if 0 < actual_quantity then
        (some (item.retail_price * (actual_quantity : Rat)),
         (k, { item with quantity := item.quantity - actual_quantity }) :: rest)
      else (none, (k, item) :: rest)
    else
      let (r, rest') := invSell product_id quantity rest
      (r, (k, item) :: rest')

/-- `Store::sell`: sell up to `quantity` units, returning the revenue (if any). -/
def Store.sell (s : Store) (product_id quantity : Nat) : Option Rat × Store :=
  ((invSell product_id quantity s.inventory).1,
   { s with inventory := (invSell product_id quantity s.inventory).2 })

def Store.get_quantity (s : Store) (product_id : Nat) : Nat :=
  ((List.lookup product_id s.inventory).map (fun item => item.quantity)).getD 0

def Store.get_price (s : Store) (product_id : Nat) : Option Rat :=
  (List.lookup product_id s.inventory).map (fun item => item.retail_price)

def invSetPrice (product_id : Nat) (new_price : Rat) :
    List (Nat × InventoryItem) → Bool × List (Nat × InventoryItem)
  | [] => (false, [])
  | (k, item) :: rest =>
    if k = product_id then (true, (k, { item with retail_price := new_price }) :: rest)
    else
      let (b, rest') := invSetPrice product_id new_price rest
      (b, (k, item) :: rest')

def Store.set_price (s : Store) (product_id : Nat) (new_price : Rat) : Bool × Store :=
  ((invSetPrice product_id new_price s.inventory).1,
   { s with inventory := (invSetPrice product_id new_price s.inventory).2 })

def Store.daily_expenses (s : Store) : Rat :=
  s.daily_rent + (s.employees.map (fun e => e.salary)).sum

/-- `Store::effective_customers`: +20% customers per employee, truncated. -/
def Store.effective_customers (s : Store) : Nat :=
  ratFloorNat ((s.daily_customers : Rat) * (1 + (s.employees.length : Rat) * 0.2))

def Store.total_inventory_value (s : Store) : Rat :=
  (s.inventory.map (fun p => p.2.retail_price * (p.2.quantity : Rat))).sum

/-! ## factory.rs -/

structure ProductionJob where
  recipe_id : Nat
  recipe_name : String
  days_remaining : Nat
  output_product_id : Nat
  output_quantity : Nat
deriving DecidableEq

def ProductionJob.new (recipe : Recipe) : ProductionJob :=
  { recipe_id := recipe.id, recipe_name := recipe.name,
    days_remaining := recipe.production_days,
    output_product_id := recipe.output_product_id,
    output_quantity := recipe.output_quantity }

structure FactoryWorker where
  name : String
  salary : Rat
deriving DecidableEq

def FactoryWorker.new (name : String) : FactoryWorker := { name := name, salary := 75 }

structure ProductionResult where
  recipe_name : String
  product_id : Nat
  quantity : Nat
deriving DecidableEq

/-- Factory (factory.rs), plus the supply-chain members used by
game.rs (`connected_stores`, `auto_transfer`, `primary_store`,
`connect_store`, `disconnect_store`, `toggle_auto_transfer`).
Modelled from the spec: the snapshot of factory.rs present under src/
predates the supply chain, while game.rs already calls these members,
so their declarations are modelled from spec section 4.4 (an ordered set
of connected store ids, an auto-transfer flag, and a stable primary
store: the first-connected store id). -/
structure Factory where
  id : Nat
  name : String
  raw_materials : List (Nat × Nat)
  finished_goods : List (Nat × Nat)
  production_queue : List ProductionJob
  workers : List FactoryWorker
  daily_rent : Rat
  connected_stores : List Nat
  auto_transfer : Bool
deriving DecidableEq

def Factory.new (id : Nat) (name : String) : Factory :=
  { id := id, name := name, raw_materials := [], finished_goods := [],
    production_queue := [], workers := [], daily_rent := 150,
    connected_stores := [], auto_transfer := false }

def Factory.production_slots (f : Factory) : Nat := 2 + f.workers.length

def Factory.active_jobs (f : Factory) : Nat := f.production_queue.length

def Factory.available_slots (f : Factory) : Nat := f.production_slots - f.active_jobs

/-- `*map.entry(k).or_insert(0) += q` on an association list. -/
def natMapAdd (k q : Nat) : List (Nat × Nat) → List (Nat × Nat)
  | [] => [(k, q)]
  | (k', v) :: rest =>
    if k' = k then (k', v + q) :: rest else (k', v) :: natMapAdd k q rest

/-- `if let Some(x) = map.get_mut(&k) { *x -= q }` on an association list. -/
def natMapSub (k q : Nat) : List (Nat × Nat) → List (Nat × Nat)
  | [] => []
  | (k', v) :: rest =>
    if k' = k then (k', v - q) :: rest else (k', v) :: natMapSub k q rest

def Factory.add_raw_material (f : Factory) (product_id quantity : Nat) : Factory :=
  { f with raw_materials := natMapAdd product_id quantity f.raw_materials }

def Factory.get_raw_material (f : Factory) (product_id : Nat) : Nat :=
  (List.lookup product_id f.raw_materials).getD 0

def Factory.get_finished_good (f : Factory) (product_id : Nat) : Nat :=
  (List.lookup product_id f.finished_goods).getD 0

def Factory.has_ingredients (f : Factory) (recipe : Recipe) : Bool :=
  recipe.ingredients.all (fun ing => ing.quantity ≤ f.get_raw_material ing.product_id)

/-- Debit one batch's ingredients from the raw-material ledger. -/
def debitIngredients (recipe : Recipe) (raw : List (Nat × Nat)) : List (Nat × Nat) :=
  recipe.ingredients.foldl (fun acc ing => natMapSub ing.product_id ing.quantity acc) raw

def Factory.start_production (f : Factory) (recipe : Recipe) : Except String Factory :=
  if f.available_slots = 0 then Except.error "No available production slots"
  else if ¬ f.has_ingredients recipe then Except.error "Insufficient raw materials"
  else Except.ok { f with raw_materials := debitIngredients recipe f.raw_materials,
                          production_queue := f.production_queue ++ [ProductionJob.new recipe] }

/-- The decrement-and-split loop of `Factory::advance_production`, threading
the finished-goods ledger. -/
def advanceJobs : List ProductionJob → List (Nat × Nat) →
    List (Nat × Nat) × List ProductionResult × List ProductionJob
  | [], fg => (fg, [], [])
  | job :: rest, fg =>
    let job' : ProductionJob := { job with days_remaining := job.days_remaining - 1 }
    if job'.days_remaining = 0 then
      let fg' := natMapAdd job'.output_product_id job'.output_quantity fg
      let (fg'', completed, still) := advanceJobs rest fg'
      (fg'', { recipe_name := job'.recipe_name, product_id := job'.output_product_id,
               quantity := job'.output_quantity } :: completed, still)
    else
      let (fg'', completed, still) := advanceJobs rest fg
      (fg'', completed, job' :: still)

def Factory.advance_production (f : Factory) : List ProductionResult × Factory :=
  ((advanceJobs f.production_queue f.finished_goods).2.1,
   { f with finished_goods := (advanceJobs f.production_queue f.finished_goods).1,
            production_queue := (advanceJobs f.production_queue f.finished_goods).2.2 })

def Factory.take_finished_goods (f : Factory) (product_id quantity : Nat) :
    Except String (Nat × Factory) :=
  let available := f.get_finished_good product_id
  if available = 0 then Except.error "No finished goods of this type"
  else
    let actual_quantity := min quantity available
    Except.ok (actual_quantity,
      { f with finished_goods := natMapSub product_id actual_quantity f.finished_goods })

def Factory.daily_expenses (f : Factory) : Rat :=
  f.daily_rent + (f.workers.map (fun w => w.salary)).sum

def Factory.hire_worker (f : Factory) (name : String) : Except String Factory :=
  if 3 ≤ f.workers.length then Except.error "Maximum of 3 workers per factory"
  else Except.ok { f with workers := f.workers ++ [FactoryWorker.new name] }

def Factory.fire_worker (f : Factory) (index : Nat) : Except String (FactoryWorker × Factory) :=
  if h : index < f.workers.length then
    Except.ok (f.workers.get ⟨index, h⟩, { f with workers := f.workers.eraseIdx index })
  else Except.error "Invalid worker index"

def Factory.max_producible (f : Factory) (recipe : Recipe) : Nat :=
  let slot_limit := f.available_slots
  if slot_limit = 0 then 0
  else
    let material_limit :=
      ((recipe.ingredients.map
          (fun ing => f.get_raw_material ing.product_id / ing.quantity)).min?).getD 0
    min slot_limit material_limit

/-- The per-batch loop body of `Factory::start_production_batch`: debit one
batch of ingredients and enqueue one job, `n` times. -/
def startJobs (recipe : Recipe) : Nat → Factory → Factory
  | 0, f => f
  | n + 1, f =>
    startJobs recipe n
      { f with raw_materials := debitIngredients recipe f.raw_materials,
               production_queue := f.production_queue ++ [ProductionJob.new recipe] }

def Factory.start_production_batch (f : Factory) (recipe : Recipe) (quantity : Nat) :
    Except String (Nat × Factory) :=
  if quantity = 0 then Except.error "Quantity must be greater than 0"
  else
    let max_possible := f.max_producible recipe
    if max_possible = 0 then
      if f.available_slots = 0 then Except.error "No available production slots"
      else Except.error "Insufficient raw materials"
    else
      let actual_quantity := min quantity max_possible
      Except.ok (actual_quantity, startJobs recipe actual_quantity f)

/-- Modelled from the spec (section 4.4): supply-chain connection management
missing from the factory.rs snapshot under src/. -/
def Factory.connect_store (f : Factory) (store_id : Nat) : Factory :=
  if f.connected_stores.contains store_id then f
  else { f with connected_stores := f.connected_stores ++ [store_id] }

/-- Modelled from the spec (section 4.4): the stable auto-transfer target is
the first-connected store. -/
def Factory.primary_store (f : Factory) : Option Nat := f.connected_stores.head?

/-! ## loan.rs -/

inductive LoanType where
  | Flexible
  | LineOfCredit
  | TermLoan
deriving DecidableEq

def LoanType.rate_modifier : LoanType → Rat
  | LoanType.Flexible => 0.02
  | LoanType.LineOfCredit => 0.01
  | LoanType.TermLoan => 0

structure Loan where
  id : Nat
  loan_type : LoanType
  principal : Rat
  balance : Rat
  interest_rate : Rat
  days_remaining : Option Nat
  daily_payment : Rat
deriving DecidableEq

def Loan.MIN_LOAN : Rat := 500
def Loan.MAX_LOAN : Rat := 25000
def Loan.MAX_TOTAL_DEBT : Rat := 50000
def Loan.TERM_LOAN_PENALTY : Rat := 0.25

def Loan.new_flexible (id : Nat) (amount annual_rate : Rat) : Loan :=
  { id := id, loan_type := LoanType.Flexible, principal := amount, balance := amount,
    interest_rate := annual_rate, days_remaining := none, daily_payment := 0 }

def Loan.new_line_of_credit (id : Nat) (amount annual_rate : Rat) : Loan :=
  { id := id, loan_type := LoanType.LineOfCredit, principal := amount, balance := amount,
    interest_rate := annual_rate, days_remaining := none,
    daily_payment := max (amount * 0.02) 10 }

def Loan.new_term_loan (id : Nat) (amount annual_rate : Rat) (days : Nat) : Loan :=
  { id := id, loan_type := LoanType.TermLoan, principal := amount, balance := amount,
    interest_rate := annual_rate, days_remaining := some days, daily_payment := 0 }

def Loan.daily_rate (l : Loan) : Rat := l.interest_rate / 365

def Loan.accrue_interest (l : Loan) : Loan :=
  { l with balance := l.balance + l.balance * l.daily_rate }

/-- `Loan::make_payment`: pay `min(amount, balance)`, return the amount paid. -/
def Loan.make_payment (l : Loan) (amount : Rat) : Rat × Loan :=
  let actual_payment := min amount l.balance
  (actual_payment, { l with balance := l.balance - actual_payment })

def Loan.is_due (l : Loan) : Bool := l.days_remaining = some 0

def Loan.is_due_soon (l : Loan) : Option Nat :=
  match l.days_remaining with
  | some days => if 0 < days ∧ days ≤ 3 then some days else none
  | none => none

def Loan.decrement_days (l : Loan) : Loan :=
  { l with days_remaining := l.days_remaining.map (fun days => if 0 < days then days - 1 else days) }

def Loan.is_paid_off (l : Loan) : Bool := l.balance < 0.01

def Loan.get_auto_payment (l : Loan) : Rat :=
  if l.loan_type = LoanType.LineOfCredit then min (max (l.balance * 0.02) 10) l.balance
  else 0

def Loan.default_penalty (l : Loan) : Rat :=
  if l.loan_type = LoanType.TermLoan then l.balance * Loan.TERM_LOAN_PENALTY else 0

/-! ## stock.rs -/

inductive StockType where
  | BlueChip
  | Growth
  | Speculative
deriving DecidableEq

def StockType.base_volatility : StockType → Rat
  | StockType.BlueChip => 0.02
  | StockType.Growth => 0.05
  | StockType.Speculative => 0.12

def StockType.dividend_yield : StockType → Rat
  | StockType.BlueChip => 0.04
  | StockType.Growth => 0.01
  | StockType.Speculative => 0

structure Stock where
  id : Nat
  symbol : String
  name : String
  stock_type : StockType
  price : Rat
  base_price : Rat
  price_history : List Rat
  price_accumulator : Rat
deriving DecidableEq

def Stock.new (id : Nat) (symbol name : String) (stock_type : StockType) (price : Rat) :
    Stock :=
  { id := id, symbol := symbol, name := name, stock_type := stock_type, price := price,
    base_price := price, price_history := [price], price_accumulator := 0 }

/-- Rust `f64::round` (half away from zero) applied to `q*100`, then `/100`:
`(self.price_accumulator * 100.0).round() / 100.0`. -/
def ratRound2 (q : Rat) : Rat :=
  (((if q * 100 < 0 then -(Int.floor (-(q * 100) + 0.5)) else Int.floor (q * 100 + 0.5)) : Int) : Rat)
    / 100

/-- `Stock::update_price` (stock.rs lines 88-134); returns the price change
and the updated stock. -/
def Stock.update_price (s : Stock) (economic_state : EconomicState) (random_factor : Rat) :
    Rat × Stock :=
  let old_price := s.price
  let economic_trend : Rat :=
    match economic_state with
    | EconomicState.Collapse => -0.03
    | EconomicState.Recession => -0.015
    | EconomicState.Standard => 0
    | EconomicState.Growth => 0.01
    | EconomicState.Booming => 0.02
    | EconomicState.Prosperity => 0.025
  let volatility := s.stock_type.base_volatility
  let random_change := random_factor * volatility
  let total_change := economic_trend + random_change
  let reversion_strength : Rat := 0.01
  let reversion := (s.base_price - s.price) / s.base_price * reversion_strength
  let acc1 := s.price_accumulator + s.price * (total_change + reversion)
  let pa :=
    if 0.01 ≤ |acc1| then
      let change := ratRound2 acc1
      (s.price + change, acc1 - change)
    else (s.price, acc1)
  let price1 := pa.1
  let acc2 := pa.2
  let price2 := if price1 < 0.5 then 0.5 else price1
  let hist1 := s.price_history ++ [price2]
  let hist2 := if 7 < hist1.length then hist1.drop 1 else hist1
  (price2 - old_price,
   { s with price := price2, price_accumulator := acc2, price_history := hist2 })

def Stock.daily_dividend (s : Stock) : Rat :=
  s.price * s.stock_type.dividend_yield / 365

structure StockHolding where
  stock_id : Nat
  shares : Nat
  avg_purchase_price : Rat
  total_dividends_earned : Rat
deriving DecidableEq

def StockHolding.receive_dividend (h : StockHolding) (amount : Rat) : StockHolding :=
  { h with total_dividends_earned := h.total_dividends_earned + amount }

structure StockMarket where
  stocks : List Stock
  random_state : Nat
deriving DecidableEq

def StockMarket.get_stock (sm : StockMarket) (stock_id : Nat) : Option Stock :=
  sm.stocks.find? (fun s => s.id == stock_id)

/-- One step of `StockMarket::next_random`'s linear congruential generator. -/
def lcg_next (state : Nat) : Nat := (state * 1103515245 + 12345) % U64MOD

/-- `((state >> 16) & 0x7FFF) / 32767 * 2 - 1`, the [-1, 1] draw. -/
def lcg_unit (state : Nat) : Rat :=
  ((((state >>> 16) &&& 0x7FFF : Nat) : Rat) / 32767) * 2 - 1

/-- The `(0..n).map(|_| self.next_random())` loop: the drawn values and the
final generator state. -/
def genRandoms : Nat → Nat → List Rat × Nat
  | state, 0 => ([], state)
  | state, n + 1 =>
    let state' := lcg_next state
    let (rest, final) := genRandoms state' n
    (lcg_unit state' :: rest, final)

/-- `StockMarket::advance_day` (stock.rs lines 263-279): update every stock's
price, returning `(symbol, old_price, new_price, change)` for each. -/
def StockMarket.advance_day (sm : StockMarket) (economic_state : EconomicState) :
    StockMarket × List (String × Rat × Rat × Rat) :=
  let randoms := (genRandoms sm.random_state sm.stocks.length).1
  let state' := (genRandoms sm.random_state sm.stocks.length).2
  let pairs := List.zipWith
    (fun (stock : Stock) (random : Rat) =>
      let old_price := stock.price
      let upd := stock.update_price economic_state random
      (upd.2, (stock.symbol, old_price, upd.2.price, upd.1)))
    sm.stocks randoms
  ({ sm with stocks := pairs.map (fun p => p.1), random_state := state' },
   pairs.map (fun p => p.2))

/-! ## competitor.rs -/

inductive PricingStrategy where
  | Aggressive
  | Neutral
  | Premium
deriving DecidableEq

def PricingStrategy.price_multiplier : PricingStrategy → Rat
  | PricingStrategy.Aggressive => 0.85
  | PricingStrategy.Neutral => 1.0
  | PricingStrategy.Premium => 1.20

def PricingStrategy.attraction_multiplier : PricingStrategy → Rat
  | PricingStrategy.Aggressive => 1.3
  | PricingStrategy.Neutral => 1.0
  | PricingStrategy.Premium => 0.7

structure Competitor where
  id : Nat
  name : String
  store_count : Nat
  store_quality : Rat
  strategy : PricingStrategy
  cash : Rat
  base_share : Rat
  days_since_expansion : Nat
deriving DecidableEq

def Competitor.new (id : Nat) (name : String) (store_count : Nat)
    (strategy : PricingStrategy) : Competitor :=
  { id := id, name := name, store_count := store_count, store_quality := 1,
    strategy := strategy, cash := 10000 + (store_count : Rat) * 5000,
    base_share := 0, days_since_expansion := 0 }

def Competitor.market_power (c : Competitor) : Rat :=
  (c.store_count : Rat) * c.store_quality * c.strategy.attraction_multiplier

/-- `Competitor::advance_day` (competitor.rs lines 94-128). The source's
early-return control flow is flattened into an if-chain with conjoined
conditions. -/
def Competitor.advance_day (c : Competitor) (economic_multiplier player_market_share : Rat) :
    Competitor × Option String :=
  let c1 : Competitor := { c with days_since_expansion := c.days_since_expansion + 1 }
  let daily_revenue :=
    (c1.store_count : Rat) * 200 * economic_multiplier * (1 - player_market_share)
  let daily_expenses := (c1.store_count : Rat) * 150
  let c2 : Competitor := { c1 with cash := c1.cash + daily_revenue - daily_expenses }
  if 0.4 < player_market_share ∧ c2.strategy ≠ PricingStrategy.Aggressive ∧
      10 < c2.days_since_expansion then
    ({ c2 with strategy := PricingStrategy.Aggressive },
     some (c2.name ++ " has switched to aggressive pricing!"))
  else if 15000 < c2.cash ∧ 14 < c2.days_since_expansion ∧ 20000 < c2.cash then
    ({ c2 with cash := c2.cash - 10000, store_count := c2.store_count + 1,
               days_since_expansion := 0 },
     some (c2.name ++ " has opened a new store!"))
  else if 7 < c2.days_since_expansion ∧ c2.store_quality < 1.5 then
    ({ c2 with store_quality := c2.store_quality + 0.01 }, none)
  else (c2, none)

def Competitor.react_to_player_expansion (c : Competitor) : Competitor × Option String :=
  if c.strategy = PricingStrategy.Neutral ∧ 5000 < c.cash then
    ({ c with strategy := PricingStrategy.Aggressive },
     some (c.name ++ " is responding with lower prices!"))
  else (c, none)

structure CompetitiveMarket where
  competitors : List Competitor
  total_market_size : Nat
  player_market_share : Rat
deriving DecidableEq

/-- `CompetitiveMarket::calculate_market_shares` (competitor.rs lines 162-189).
Rational division by zero yields 0 where the source's f64 would give
NaN/infinity in `base_share` when `total_power == 0`; `base_share` is never
read anywhere else. -/
def CompetitiveMarket.calculate_market_shares (cm : CompetitiveMarket)
    (player_store_count : Nat) (player_avg_markup : Rat) : CompetitiveMarket :=
  let player_price_factor : Rat :=
    if 60 < player_avg_markup then 0.7
    else if player_avg_markup < 30 then 1.3
    else 1.0
  let player_power := (player_store_count : Rat) * player_price_factor
  let competitor_power := (cm.competitors.map Competitor.market_power).sum
  let total_power := player_power + competitor_power
  let share :=
    if 0 < total_power then fclamp (player_power / total_power) 0.05 0.95 else 0.5
  { cm with
    player_market_share := share,
    competitors := cm.competitors.map
      (fun c => { c with base_share := c.market_power / total_power }) }

def CompetitiveMarket.player_customer_multiplier (cm : CompetitiveMarket) : Rat :=
  fclamp (cm.player_market_share * 2) 0.3 1.5

/-- The per-competitor loop of `CompetitiveMarket::advance_day`. -/
def competitorsPass (economic_multiplier player_share : Rat) :
    List Competitor → List Competitor × List String
  | [] => ([], [])
  | c :: rest =>
    let (c', event) := c.advance_day economic_multiplier player_share
    let (rest', events) := competitorsPass economic_multiplier player_share rest
    (c' :: rest', (event.toList) ++ events)

def CompetitiveMarket.advance_day (cm : CompetitiveMarket) (economic_multiplier : Rat) :
    CompetitiveMarket × List String :=
  ({ cm with competitors :=
      (competitorsPass economic_multiplier cm.player_market_share cm.competitors).1 },
   (competitorsPass economic_multiplier cm.player_market_share cm.competitors).2)

/-! ## player.rs -/

structure Player where
  cash : Rat
  stores : List Store
  factories : List Factory
  loans : List Loan
  holdings : List (Nat × StockHolding)
  next_store_id : Nat
  next_factory_id : Nat
  next_loan_id : Nat
deriving DecidableEq

def Player.total_debt (p : Player) : Rat := (p.loans.map (fun l => l.balance)).sum

def Player.get_loan (p : Player) (loan_id : Nat) : Option Loan :=
  p.loans.find? (fun l => l.id == loan_id)

/-- `get_loan_mut` + `Loan::make_payment`: pay the first loan with the given
id and return the amount actually paid together with the updated ledger. -/
def payFirst (loan_id : Nat) (amount : Rat) : List Loan → Option (Rat × List Loan)
  | [] => none
  | l :: rest =>
    if l.id = loan_id then
      let (actual, l') := l.make_payment amount
      some (actual, l' :: rest)
    else (payFirst loan_id amount rest).map (fun p => (p.1, l :: p.2))

/-- `Player::make_loan_payment` (player.rs lines 154-163): cap the payment at
available cash, then at the loan balance. -/
def Player.make_loan_payment (p : Player) (loan_id : Nat) (amount : Rat) :
    Option Rat × Player :=
  let payment_amount := min amount p.cash
  match payFirst loan_id payment_amount p.loans with
  | some (actual, loans') =>
    (some actual, { p with cash := p.cash - actual, loans := loans' })
  | none => (none, p)

/-- `get_loan_mut` + `balance += penalty` (the default-penalty write-back in
`GameState::advance_day`). -/
def addPenaltyFirst (loan_id : Nat) (penalty : Rat) : List Loan → List Loan
  | [] => []
  | l :: rest =>
    if l.id = loan_id then { l with balance := l.balance + penalty } :: rest
    else l :: addPenaltyFirst loan_id penalty rest

def Player.cleanup_loans (p : Player) : Player :=
  { p with loans := p.loans.filter (fun l => ¬ l.is_paid_off) }

/-! ## game.rs -/

structure GameState where
  day : Nat
  player : Player
  market : Market
  competitive_market : CompetitiveMarket
  products : List Product
  recipes : List Recipe
  current_store : Nat
  current_factory : Option Nat
  is_bankrupt : Bool
deriving DecidableEq

structure DayResult where
  total_revenue : Rat
  total_items_sold : Nat
  sales_by_product : List (String × Nat × Rat)
  total_expenses : Rat
  expenses_by_store : List (String × Rat × Rat)
  expenses_by_factory : List (String × Rat × Rat)
  production_completed : List ProductionResult
  net_profit : Rat
  economic_state : EconomicState
  economic_change : Option String
  loan_interest_accrued : Rat
  loan_payments : List (Nat × Rat)
  loans_due : List (Nat × Rat)
  loans_due_soon : List (Nat × Nat × Rat)
  term_loan_penalties : Rat
  auto_transfers : List (String × String × String × Nat)
  competitor_events : List String
  player_market_share : Rat
deriving DecidableEq

def GameState.get_product (g : GameState) (product_id : Nat) : Option Product :=
  g.products.find? (fun p => p.id == product_id)

/-- `GameState::buy_inventory` (game.rs lines 337-363). An out-of-range
`current_store` index would be a Rust panic; the model returns an error
(no success, no mutation, matching the absence of an observable state). -/
def GameState.buy_inventory (g : GameState) (product_id quantity : Nat) :
    Except String (Rat × GameState) :=
  if (g.get_product product_id).isNone then Except.error "Product not found"
  else
    match g.market.get_wholesale_price product_id with
    | none => Except.error "Wholesale price not found"
    | some wholesale_price =>
      let total_cost := wholesale_price * (quantity : Rat)
      if g.player.cash < total_cost then Except.error "Not enough cash!"
      else
        match g.player.stores[g.current_store]? with
        | none => Except.error "invalid current store index"
        | some store =>
          let suggested_retail := Market.suggest_retail_price wholesale_price 50
          let store' := store.add_inventory product_id quantity suggested_retail
          Except.ok (total_cost,
            { g with player :=
                { g.player with
                  cash := g.player.cash - total_cost,
                  stores := g.player.stores.set g.current_store store' } })

/-- `GameState::calculate_average_markup` (game.rs lines 734-753). -/
def GameState.calculate_average_markup (g : GameState) : Rat :=
  let markups :=
    (g.player.stores.flatMap (fun s => s.inventory)).filterMap
      (fun entry =>
        (g.get_product entry.1).map
          (fun product =>
            ((entry.2.retail_price - product.base_price) / product.base_price) * 100))
  if 0 < markups.length then markups.sum / (markups.length : Rat) else 50

/-- Running totals of the per-store sales loop. -/
structure SalesTotals where
  total_revenue : Rat
  total_items_sold : Nat
  sales_by_product : List (String × Nat × Rat)
deriving DecidableEq

/-- One inventory line of the per-store sales loop in `GameState::advance_day`:
look up the catalog product, compute sales, sell, credit cash. -/
def sellLine (mkt : Market) (products : List Product) (customer_count : Nat)
    (acc : Store × Rat × SalesTotals) (product_id : Nat) : Store × Rat × SalesTotals :=
  let (store, cash, totals) := acc
  match products.find? (fun p => p.id == product_id) with
  | none => (store, cash, totals)
  | some product =>
    match List.lookup product_id store.inventory with
    | none => (store, cash, totals)
    | some item =>
      if 0 < item.quantity then
        let sales := mkt.calculate_sales product item.retail_price item.quantity customer_count
        if 0 < sales then
          match store.sell product_id sales with
          | (some revenue, store') =>
            (store', cash + revenue,
             { total_revenue := totals.total_revenue + revenue,
               total_items_sold := totals.total_items_sold + sales,
               sales_by_product :=
                 totals.sales_by_product ++ [(product.name, sales, revenue)] })
          | (none, store') => (store', cash, totals)
        else (store, cash, totals)
      else (store, cash, totals)

/-- The `for store_idx in 0..store_count` loop of `GameState::advance_day`:
expenses, customer count, and the per-product sales pass for each store. -/
def storePass (mkt : Market) (products : List Product) (customer_multiplier : Rat) :
    List Store → Rat → List Store × Rat × Rat × List (String × Rat × Rat) × SalesTotals
  | [], cash => ([], cash, 0, [], ⟨0, 0, []⟩)
  | store :: rest, cash =>
    let rent := store.daily_rent
    let salaries := (store.employees.map (fun e => e.salary)).sum
    let customer_count := ratFloorNat ((store.effective_customers : Rat) * customer_multiplier)
    let product_ids := store.inventory.map (fun entry => entry.1)
    let (store', cash', totals) :=
      product_ids.foldl (sellLine mkt products customer_count) (store, cash, ⟨0, 0, []⟩)
    let (rest', cash'', expenses, expense_list, totalsR) :=
      storePass mkt products customer_multiplier rest cash'
    (store' :: rest', cash'', (rent + salaries) + expenses,
     (store.name, rent, salaries) :: expense_list,
     { total_revenue := totals.total_revenue + totalsR.total_revenue,
       total_items_sold := totals.total_items_sold + totalsR.total_items_sold,
       sales_by_product := totals.sales_by_product ++ totalsR.sales_by_product })

/-- The per-product transfer loop of the auto-transfer block: move every
finished good of the factory to the store at `store_idx`. -/
def transferGoods (products : List Product) (factory_name store_name : String)
    (store_idx : Nat) :
    List Nat → Factory → List Store → Factory × List Store × List (String × String × String × Nat)
  | [], f, stores => (f, stores, [])
  | product_id :: rest, f, stores =>
    let quantity := f.get_finished_good product_id
    if 0 < quantity then
      match products.find? (fun p => p.id == product_id) with
      | some product =>
        let retail_price := Market.suggest_retail_price product.base_price 50
        match f.take_finished_goods product_id quantity with
        | Except.ok (transferred, f') =>
          let stores' :=
            match stores[store_idx]? with
            | some st =>
              stores.set store_idx (st.add_inventory product_id transferred retail_price)
            | none => stores
          let (f'', stores'', logs) :=
            transferGoods products factory_name store_name store_idx rest f' stores'
          (f'', stores'', (factory_name, store_name, product.name, transferred) :: logs)
        | Except.error _ =>
          transferGoods products factory_name store_name store_idx rest f stores
      | none => transferGoods products factory_name store_name store_idx rest f stores
    else transferGoods products factory_name store_name store_idx rest f stores

/-- The `for factory_idx in 0..factory_count` loop of `GameState::advance_day`:
expenses, production advance, and the auto-transfer block for each factory. -/
def factoryPass (products : List Product) :
    List Factory → List Store →
    List Factory × List Store × Rat × List (String × Rat × Rat) × List ProductionResult ×
      List (String × String × String × Nat)
  | [], stores => ([], stores, 0, [], [], [])
  | f :: rest, stores =>
    let rent := f.daily_rent
    let salaries := (f.workers.map (fun w => w.salary)).sum
    let (completed, f1) := f.advance_production
    let (f2, stores2, transfers) :=
      if f1.auto_transfer ∧ ¬ f1.connected_stores.isEmpty then
        match f1.primary_store with
        | some primary_store_id =>
          match stores.findIdx? (fun s => s.id == primary_store_id) with
          | some store_idx =>
            let store_name := ((stores[store_idx]?).map (fun s => s.name)).getD ""
            let product_ids := f1.finished_goods.map (fun entry => entry.1)
            transferGoods products f1.name store_name store_idx product_ids f1 stores
          | none => (f1, stores, [])
        | none => (f1, stores, [])
      else (f1, stores, [])
    let (rest', stores', expenses, expense_list, completedR, transfersR) :=
      factoryPass products rest stores2
    (f2 :: rest', stores', (rent + salaries) + expenses,
     (f.name, rent, salaries) :: expense_list, completed ++ completedR,
     transfers ++ transfersR)

/-- Loan step 1 of `GameState::advance_day`: accrue interest on every loan,
summing the accrued interest. -/
def accrueAll : List Loan → List Loan × Rat
  | [] => ([], 0)
  | l :: rest =>
    let l' := l.accrue_interest
    let (rest', accrued) := accrueAll rest
    (l' :: rest', (l'.balance - l.balance) + accrued)

/-- Loan step 2 of `GameState::advance_day`: the line-of-credit auto-payment
loop over the snapshot of loan ids. -/
def locPass (p : Player) : List Nat → Player × List (Nat × Rat)
  | [] => (p, [])
  | loan_id :: rest =>
    match p.get_loan loan_id with
    | some loan =>
      if loan.loan_type = LoanType.LineOfCredit then
        let auto_payment := loan.get_auto_payment
        if 0 < auto_payment ∧ auto_payment ≤ p.cash then
          match p.make_loan_payment loan_id auto_payment with
          | (some paid, p') =>
            let (p'', payments) := locPass p' rest
            (p'', (loan_id, paid) :: payments)
          | (none, p') => locPass p' rest
        else if 0 < auto_payment then
          let available := max p.cash 0
          if 0 < available then
            match p.make_loan_payment loan_id available with
            | (some paid, p') =>
              let (p'', payments) := locPass p' rest
              (p'', (loan_id, paid) :: payments)
            | (none, p') => locPass p' rest
          else locPass p rest
        else locPass p rest
      else locPass p rest
    | none => locPass p rest

/-- Loan step 4 of `GameState::advance_day`: handle each due term loan from
the captured `(id, balance)` snapshot; returns the summed penalties. -/
def duePass (p : Player) : List (Nat × Rat) → Player × Rat
  | [] => (p, 0)
  | (loan_id, balance) :: rest =>
    if balance ≤ p.cash then
      let (_, p') := p.make_loan_payment loan_id balance
      duePass p' rest
    else
      let penalty := ((p.get_loan loan_id).map Loan.default_penalty).getD 0
      let available := max p.cash 0
      let p1 := if 0 < available then (p.make_loan_payment loan_id available).2 else p
      let p2 : Player := { p1 with loans := addPenaltyFirst loan_id penalty p1.loans }
      let (p', penalties) := duePass p2 rest
      (p', penalty + penalties)

/-- Loan steps 1-6 of `GameState::advance_day` (game.rs lines 620-700),
applied to the player carrying the post-expense cash balance: interest
accrual, line-of-credit auto-payments, term-loan countdown, due handling,
due-soon warnings and sub-cent cleanup. Returns the updated player followed
by (interest accrued, auto-payments, loans due, due-soon warnings,
penalties). -/
def loanPipeline (p0 : Player) :
    Player × Rat × List (Nat × Rat) × List (Nat × Rat) × List (Nat × Nat × Rat) × Rat :=
  let accrueStep := accrueAll p0.loans
  let loans1 := accrueStep.1
  let p1 : Player := { p0 with loans := loans1 }
  let loan_ids := loans1.map (fun l => l.id)
  let locStep := locPass p1 loan_ids
  let p2 := locStep.1
  let decremented := p2.loans.map
    (fun l => if l.loan_type = LoanType.TermLoan then l.decrement_days else l)
  let p3 : Player := { p2 with loans := decremented }
  let loans_due := (p3.loans.filter (fun l => l.is_due)).map (fun l => (l.id, l.balance))
  let dueStep := duePass p3 loans_due
  let p4 := dueStep.1
  let loans_due_soon :=
    p4.loans.filterMap (fun l => (l.is_due_soon).map (fun days => (l.id, days, l.balance)))
  let p5 := p4.cleanup_loans
  (p5, accrueStep.2, locStep.2, loans_due, loans_due_soon, dueStep.2)

/-- `GameState::advance_day` (game.rs lines 466-731), with the source's
`(day * 0.125).sin()` passed in as `trend` (see the file header). -/
def GameState.advance_day (g : GameState) (trend : Rat) : DayResult × GameState :=
  let marketStep := g.market.advance_day g.day trend
  let market1 := marketStep.1
  let economic_change := marketStep.2
  let economic_state := market1.economic_state
  let player_avg_markup := g.calculate_average_markup
  let player_store_count := g.player.stores.length
  let cm1 := g.competitive_market.calculate_market_shares player_store_count player_avg_markup
  let player_market_share := cm1.player_market_share
  let customer_multiplier := cm1.player_customer_multiplier
  let cmStep := cm1.advance_day economic_state.sales_multiplier
  let cm2 := cmStep.1
  let competitor_events := cmStep.2
  let storeStep := storePass market1 g.products customer_multiplier g.player.stores g.player.cash
  let stores1 := storeStep.1
  let cash1 := storeStep.2.1
  let store_expenses := storeStep.2.2.1
  let expenses_by_store := storeStep.2.2.2.1
  let totals := storeStep.2.2.2.2
  let factoryStep := factoryPass g.products g.player.factories stores1
  let factories1 := factoryStep.1
  let stores2 := factoryStep.2.1
  let factory_expenses := factoryStep.2.2.1
  let expenses_by_factory := factoryStep.2.2.2.1
  let production_completed := factoryStep.2.2.2.2.1
  let auto_transfers := factoryStep.2.2.2.2.2
  let total_expenses := store_expenses + factory_expenses
  let cash2 := cash1 - total_expenses
  let p0 : Player :=
    { g.player with cash := cash2, stores := stores2, factories := factories1 }
  let loanStep := loanPipeline p0
  let p5 := loanStep.1
  let loan_interest_accrued := loanStep.2.1
  let loan_payments := loanStep.2.2.1
  let loans_due := loanStep.2.2.2.1
  let loans_due_soon := loanStep.2.2.2.2.1
  let term_loan_penalties := loanStep.2.2.2.2.2
  let bankrupt := if p5.cash < 0 then true else g.is_bankrupt
  let net_profit := totals.total_revenue - total_expenses - loan_interest_accrued
  ({ total_revenue := totals.total_revenue,
     total_items_sold := totals.total_items_sold,
     sales_by_product := totals.sales_by_product,
     total_expenses := total_expenses,
     expenses_by_store := expenses_by_store,
     expenses_by_factory := expenses_by_factory,
     production_completed := production_completed,
     net_profit := net_profit,
     economic_state := economic_state,
     economic_change := economic_change,
     loan_interest_accrued := loan_interest_accrued,
     loan_payments := loan_payments,
     loans_due := loans_due,
     loans_due_soon := loans_due_soon,
     term_loan_penalties := term_loan_penalties,
     auto_transfers := auto_transfers,
     competitor_events := competitor_events,
     player_market_share := player_market_share },
   { g with day := g.day + 1, player := p5, market := market1,
            competitive_market := cm2, is_bankrupt := bankrupt })

/-! ## The stock-market step of the most complete day tick

The repository's most complete snapshot gives `GameState` a `stock_market`
field and a stock step in `advance_day`; that snapshot of game.rs is not
under src/ (ui.rs, its caller, reads `game.stock_market`,
`result.stock_changes` and `result.dividends_earned`, and stock.rs holds the
declarations). The price update below is embedded from stock.rs; the
dividend-distribution wiring is modelled from the spec. -/

/-- Modelled from the spec (sections 4.6, 4.7): pay every holder its daily
dividend (`shares * price * yield / 365`) into the holding's accumulator, and
collect the day's total. The per-stock dividend itself is
`Stock.daily_dividend` from stock.rs. -/
def distributeDividends (sm : StockMarket) :
    List (Nat × StockHolding) → List (Nat × StockHolding) × Rat
  | [] => ([], 0)
  | (stock_id, holding) :: rest =>
    let dividend :=
      match sm.get_stock stock_id with
      | some stock => stock.daily_dividend * (holding.shares : Rat)
      | none => 0
    let (rest', total) := distributeDividends sm rest
    ((stock_id, holding.receive_dividend dividend) :: rest', dividend + total)

/-- The `DayResult` of the most complete snapshot additionally carries the
stock price changes and the day's dividend total (as read by ui.rs). -/
structure DayResultFull where
  base : DayResult
  stock_changes : List (String × Rat × Rat × Rat)
  dividends_earned : Rat
deriving DecidableEq

/-- Modelled from the spec (section 4.7, step 8): the most complete
snapshot's `advance_day` runs the embedded tick, then updates every stock
price via `StockMarket::advance_day` (stock.rs) against the post-transition
economic state and distributes dividends to holders, summing them into the
day's report. -/
def GameState.advance_day_full (g : GameState) (sm : StockMarket) (trend : Rat) :
    DayResultFull × GameState × StockMarket :=
  let result := (g.advance_day trend).1
  let g1 := (g.advance_day trend).2
  let sm1 := (sm.advance_day g1.market.economic_state).1
  let changes := (sm.advance_day g1.market.economic_state).2
  let holdings' := (distributeDividends sm1 g1.player.holdings).1
  let dividends := (distributeDividends sm1 g1.player.holdings).2
  ({ base := result, stock_changes := changes, dividends_earned := dividends },
   { g1 with player := { g1.player with holdings := holdings' } }, sm1)

/-- Iterate the day tick (trend fixed to 0), collecting each day's report. -/
def runDays : GameState → Nat → List DayResult × GameState
  | g, 0 => ([], g)
  | g, n + 1 =>
    let step := g.advance_day 0
    let rest := runDays step.2 n
    (step.1 :: rest.1, rest.2)

/-! ## Concrete example states -/

def breadEx : Product :=
  { id := 1, name := "Bread", base_price := 2, category := Category.Food,
    product_type := ProductType.RetailGood }

def productsEx : List Product := [breadEx]

/-- The category-demand table of `Market::new`. -/
def categoryDemandEx : List (Category × Rat) :=
  [(Category.Food, 1.2), (Category.Electronics, 0.8), (Category.Clothing, 1.0),
   (Category.Furniture, 0.6), (Category.RawMaterial, 0.0)]

/-- `Market::new(&[Bread])`. -/
def marketEx : Market :=
  { wholesale_prices := [(1, 2)], category_demand := categoryDemandEx,
    day_seed := 12345, economic_state := EconomicState.Standard, economic_trend := 0 }

/-- The market state right after `advance_day(2)`: day seed
`2 * 31337 + 42 = 62716`; the day-2 transition roll (0.4037) keeps the
Standard state. -/
def marketCx : Market := { marketEx with day_seed := 62716 }

def cmEmpty : CompetitiveMarket :=
  { competitors := [], total_market_size := 500, player_market_share := 0.15 }

def storeEx : Store :=
  { id := 1, name := "My First Store",
    inventory := [(1, { product_id := 1, quantity := 100, retail_price := 3 })],
    daily_customers := 50, employees := [], daily_rent := 100 }

def playerEx : Player :=
  { cash := 1000, stores := [storeEx], factories := [], loans := [], holdings := [],
    next_store_id := 2, next_factory_id := 1, next_loan_id := 1 }

def gEx : GameState :=
  { day := 5, player := playerEx, market := marketEx, competitive_market := cmEmpty,
    products := productsEx, recipes := [], current_store := 0, current_factory := none,
    is_bankrupt := false }

/-- A state whose single store has an empty inventory map (for the
zero-quantity purchase claim). -/
def g9 : GameState :=
  { gEx with player := { playerEx with cash := 100, stores := [Store.new 1 "Empty"] } }

/-- A minimal state holding one loan and nothing else that touches cash
during the tick (no stores, no factories, no competitors). -/
def loanStateEx (cash : Rat) (l : Loan) : GameState :=
  { day := 3,
    player := { cash := cash, stores := [], factories := [], loans := [l], holdings := [],
                next_store_id := 2, next_factory_id := 1, next_loan_id := 2 },
    market := marketEx, competitive_market := cmEmpty, products := productsEx,
    recipes := [], current_store := 0, current_factory := none, is_bankrupt := false }

/-- Single term loan of the given balance/rate with `days` days remaining. -/
def termStateEx (cash balance rate : Rat) (days : Nat) : GameState :=
  loanStateEx cash
    { id := 1, loan_type := LoanType.TermLoan, principal := balance, balance := balance,
      interest_rate := rate, days_remaining := some days, daily_payment := 0 }

/-- Single line-of-credit loan of the given balance/rate. -/
def locStateEx (cash balance rate : Rat) : GameState :=
  loanStateEx cash
    { id := 1, loan_type := LoanType.LineOfCredit, principal := balance, balance := balance,
      interest_rate := rate, days_remaining := none,
      daily_payment := max (balance * 0.02) 10 }

/-- The Wooden Chair recipe: 2 Lumber → 1 Chair, 1 day (recipe.rs). -/
def recipeEx : Recipe :=
  { id := 1, name := "Wooden Chair",
    ingredients := [{ product_id := 11, quantity := 2 }],
    output_product_id := 16, output_quantity := 1, production_days := 1 }

/-! ## Factory command sequences (for the slot invariant) -/

/-- The factory commands quantified over by the slot-invariant claim. -/
inductive FOp where
  | hire (name : String)
  | fire (index : Nat)
  | start (recipe : Recipe)
  | startBatch (recipe : Recipe) (quantity : Nat)

/-- Apply one command; a rejected command (`Err`) leaves the factory as is. -/
def FOp.apply (f : Factory) : FOp → Factory
  | FOp.hire n =>
    match f.hire_worker n with
    | Except.ok f' => f'
    | Except.error _ => f
  | FOp.fire i =>
    match f.fire_worker i with
    | Except.ok (_, f') => f'
    | Except.error _ => f
  | FOp.start r =>
    match f.start_production r with
    | Except.ok f' => f'
    | Except.error _ => f
  | FOp.startBatch r q =>
    match f.start_production_batch r q with
    | Except.ok (_, f') => f'
    | Except.error _ => f

def runOps (f : Factory) (ops : List FOp) : Factory := ops.foldl FOp.apply f

/-- `true` iff the command is not a `fire_worker`. -/
def FOp.notFire : FOp → Bool
  | FOp.fire _ => false
  | _ => true

/-- The sales formula exactly as the spec words it,
`sold = min(floor(expected * variance), available_quantity)` with
`expected = customer_count * base_demand * price_factor` kept real-valued
until the final floor, for comparison against `Market.calculate_sales`. -/
def calculate_sales_spec (m : Market) (product : Product) (retail_price : Rat)
    (available_quantity customer_count : Nat) : Nat :=
  let base_price := product.base_price
  let category_multiplier := (List.lookup product.category m.category_demand).getD 1.0
  let price_ratio := (retail_price - base_price) / base_price
  let price_factor := fclamp (1 - price_ratio * 0.5) 0.0 2.0
  let economic_multiplier := m.economic_state.sales_multiplier
  let base_demand := 0.1 * category_multiplier * economic_multiplier
  let expected := (customer_count : Rat) * base_demand * price_factor
  let variance := m.get_daily_variance
  min (ratFloorNat (expected * variance)) available_quantity

/-! ## Supporting lemmas -/

theorem fclamp_bounds (x lo hi : Rat) (h : lo ≤ hi) :
    lo ≤ fclamp x lo hi ∧ fclamp x lo hi ≤ hi := by
  unfold fclamp
  split_ifs with h1 h2
  · exact ⟨le_refl lo, h⟩
  · exact ⟨h, le_refl hi⟩
  · exact ⟨le_of_not_lt h1, le_of_not_lt h2⟩

theorem startJobs_queue_length (recipe : Recipe) (n : Nat) (f : Factory) :
    (startJobs recipe n f).production_queue.length = f.production_queue.length + n := by
  induction n generalizing f with
  | zero => rfl
  | succ k ih =>
    simp only [startJobs, ih, List.length_append, List.length_cons, List.length_nil]
    omega

theorem startJobs_workers (recipe : Recipe) (n : Nat) (f : Factory) :
    (startJobs recipe n f).workers = f.workers := by
  induction n generalizing f with
  | zero => rfl
  | succ k ih => simp only [startJobs, ih]

theorem hire_worker_ok {f f' : Factory} {n : String} (h : f.hire_worker n = Except.ok f') :
    f'.production_queue = f.production_queue ∧
    f'.production_slots = f.production_slots + 1 := by
  unfold Factory.hire_worker at h
  split_ifs at h with h3
  all_goals cases h
  refine ⟨rfl, ?_⟩
  simp only [Factory.production_slots, List.length_append, List.length_cons,
    List.length_nil]
  omega

theorem start_production_ok {f f' : Factory} {r : Recipe}
    (h : f.start_production r = Except.ok f') :
    f'.production_queue.length = f.production_queue.length + 1 ∧
    f'.workers = f.workers ∧
    f.production_queue.length < f.production_slots := by
  unfold Factory.start_production at h
  split_ifs at h with h1 h2
  all_goals cases h
  have h1' : f.production_slots - f.production_queue.length ≠ 0 := h1
  refine ⟨?_, rfl, by omega⟩
  simp only [List.length_append, List.length_cons, List.length_nil]

theorem max_producible_le_available (f : Factory) (r : Recipe) :
    f.max_producible r ≤ f.available_slots := by
  unfold Factory.max_producible
  dsimp only
  split_ifs with h4
  · omega
  · exact Nat.min_le_left _ _

theorem start_production_batch_ok {f f' : Factory} {r : Recipe} {q n : Nat}
    (h : f.start_production_batch r q = Except.ok (n, f')) :
    f'.production_queue.length = f.production_queue.length + n ∧
    f'.workers = f.workers ∧ n ≤ f.available_slots := by
  simp only [Factory.start_production_batch] at h
  split_ifs at h with h1 h2 h3
  all_goals cases h
  refine ⟨startJobs_queue_length r _ f, startJobs_workers r _ f, ?_⟩
  exact le_trans (Nat.min_le_right _ _) (max_producible_le_available f r)

theorem apply_preserves_slots (f : Factory) (op : FOp) (hop : op.notFire = true)
    (h : f.production_queue.length ≤ f.production_slots) :
    (FOp.apply f op).production_queue.length ≤ (FOp.apply f op).production_slots := by
  cases op with
  | hire n =>
    cases hh : f.hire_worker n with
    | error e => simp only [FOp.apply, hh]; exact h
    | ok f' =>
      obtain ⟨hq, hs⟩ := hire_worker_ok hh
      simp only [FOp.apply, hh, hq, hs]
      omega
  | fire i => simp [FOp.notFire] at hop
  | start r =>
    cases hh : f.start_production r with
    | error e => simp only [FOp.apply, hh]; exact h
    | ok f' =>
      obtain ⟨hq, hw, hlt⟩ := start_production_ok hh
      have hs : f'.production_slots = f.production_slots := by
        simp [Factory.production_slots, hw]
      simp only [FOp.apply, hh, hq, hs]
      omega
  | startBatch r q =>
    cases hh : f.start_production_batch r q with
    | error e => simp only [FOp.apply, hh]; exact h
    | ok pair =>
      obtain ⟨n, f'⟩ := pair
      obtain ⟨hq, hw, hle⟩ := start_production_batch_ok hh
      have hs : f'.production_slots = f.production_slots := by
        simp [Factory.production_slots, hw]
      have hav : f.available_slots = f.production_slots - f.production_queue.length := rfl
      rw [hav] at hle
      simp only [FOp.apply, hh, hq, hs]
      omega

/-! ## Claims -/

/-- C3 counterexample: from a fresh factory with 6 Lumber, hire one worker
(3 slots), start a batch of 3 chair jobs (queue = 3), then fire the worker:
the slot count drops to 2 while the queue still holds 3 jobs, so the claimed
invariant `production_queue.len() ≤ production_slots()` fails after a
`fire_worker` call. -/
theorem claim3_counterexample :
    (runOps ((Factory.new 1 "Chairs").add_raw_material 11 6)
        [FOp.hire "w", FOp.startBatch recipeEx 3, FOp.fire 0]).production_slots <
      (runOps ((Factory.new 1 "Chairs").add_raw_material 11 6)
        [FOp.hire "w", FOp.startBatch recipeEx 3, FOp.fire 0]).production_queue.length := by
  decide

/-- C3 (amended): for every sequence of `hire_worker`, `start_production`
and `start_production_batch` calls (i.e. excluding `fire_worker`, which the
counterexample shows can break the bound), a factory satisfying
`production_queue.len() ≤ production_slots()` still satisfies it after the
whole sequence — hence, since every prefix is such a sequence, at all
times. -/
theorem claim3_slot_invariant (ops : List FOp) (f : Factory)
    (hops : ops.all FOp.notFire = true)
    (hinv : f.production_queue.length ≤ f.production_slots) :
    (runOps f ops).production_queue.length ≤ (runOps f ops).production_slots := by
  induction ops generalizing f with
  | nil => exact hinv
  | cons op rest ih =>
    simp only [List.all_cons, Bool.and_eq_true] at hops
    exact ih (FOp.apply f op) hops.2 (apply_preserves_slots f op hops.1 hinv)

/-- C3 witness: the amended invariant applied to a concrete sequence. -/
theorem claim3_slot_invariant_witness :
    ([FOp.hire "w", FOp.startBatch recipeEx 2] : List FOp).all FOp.notFire = true ∧
    ((Factory.new 1 "F").add_raw_material 11 6).production_queue.length ≤
      ((Factory.new 1 "F").add_raw_material 11 6).production_slots ∧
    (runOps ((Factory.new 1 "F").add_raw_material 11 6)
        [FOp.hire "w", FOp.startBatch recipeEx 2]).production_queue.length ≤
      (runOps ((Factory.new 1 "F").add_raw_material 11 6)
        [FOp.hire "w", FOp.startBatch recipeEx 2]).production_slots :=
  ⟨by decide, by decide,
   claim3_slot_invariant [FOp.hire "w", FOp.startBatch recipeEx 2]
     ((Factory.new 1 "F").add_raw_material 11 6) (by decide) (by decide)⟩

/-- C4 counterexample: with the day-2 market (day seed 62716, variance
1.106) and 55 customers looking at Bread (base price 2, Food) priced at
retail 2 with 100 available, the source floors the expectation 6.6 to 6
before applying the variance — `calculate_sales` returns
`floor(6 * 1.106) = 6`, while the spec's formula
`min(floor(expected * variance), available)` gives `floor(6.6 * 1.106) = 7`. -/
theorem claim4_counterexample :
    Market.calculate_sales marketCx breadEx 2 100 55 = 6 ∧
    calculate_sales_spec marketCx breadEx 2 100 55 = 7 := by
  constructor <;>
  · norm_num [Market.calculate_sales, calculate_sales_spec, Market.get_daily_variance,
      marketCx, marketEx, breadEx, categoryDemandEx, fclamp, ratFloorNat, U64MOD,
      List.lookup, EconomicState.sales_multiplier]
    try simp
    try norm_num
    try omega

/-- C4 (amended): `Market.calculate_sales` never returns more than
`available_quantity`, for every market, product, price, stock and customer
count; the exact value is
`min(floor(floor(expected) * variance), available_quantity)` — the
expectation is truncated *before* the variance multiplier is applied (the
counterexample shows the spec's single-floor formula differs). -/
theorem claim4_sales_cap (m : Market) (product : Product) (retail_price : Rat)
    (available_quantity customer_count : Nat) :
    Market.calculate_sales m product retail_price available_quantity customer_count ≤
      available_quantity ∧
    Market.calculate_sales m product retail_price available_quantity customer_count =
      min
        (ratFloorNat
          ((ratFloorNat ((customer_count : Rat) *
              (0.1 * ((List.lookup product.category m.category_demand).getD 1.0) *
                m.economic_state.sales_multiplier) *
              fclamp (1 - ((retail_price - product.base_price) / product.base_price) * 0.5)
                0.0 2.0) : Rat) *
            m.get_daily_variance))
        available_quantity := by
  exact ⟨Nat.min_le_right _ _, rfl⟩

/-- C5: after every call to `calculate_market_shares` — for every competitor
population, every player store count (including 0) and every average markup
(including 0) — the player's market share lies in [0.05, 0.95]: the
positive-power branch clamps the power ratio into that interval and the
degenerate branch returns 0.5. -/
theorem claim5_market_share_bounds (cm : CompetitiveMarket) (player_store_count : Nat)
    (player_avg_markup : Rat) :
    0.05 ≤ (cm.calculate_market_shares player_store_count
        player_avg_markup).player_market_share ∧
    (cm.calculate_market_shares player_store_count
        player_avg_markup).player_market_share ≤ 0.95 := by
  have hcl : ∀ x : Rat, (0.05 : Rat) ≤ fclamp x 0.05 0.95 ∧ fclamp x 0.05 0.95 ≤ 0.95 :=
    fun x => fclamp_bounds x 0.05 0.95 (by norm_num)
  simp only [CompetitiveMarket.calculate_market_shares]
  split_ifs
  all_goals first | (norm_num; done) | exact hcl _

theorem lookup_cons_self {β : Type} (k : Nat) (b : β) (l : List (Nat × β)) :
    List.lookup k ((k, b) :: l) = some b := by
  simp [List.lookup]

theorem lookup_cons_ne {β : Type} (a k : Nat) (b : β) (l : List (Nat × β)) (h : a ≠ k) :
    List.lookup a ((k, b) :: l) = List.lookup a l := by
  have hb : (a == k) = false := beq_eq_false_iff_ne.mpr h
  simp [List.lookup, hb]

theorem invAdd_quantity_self (pid q : Nat) (price : Rat) (inv : List (Nat × InventoryItem)) :
    ((List.lookup pid (invAdd pid q price inv)).map (fun i => i.quantity)).getD 0 =
      ((List.lookup pid inv).map (fun i => i.quantity)).getD 0 + q := by
  induction inv with
  | nil => simp [invAdd, lookup_cons_self, List.lookup]
  | cons e rest ih =>
    obtain ⟨k, item⟩ := e
    by_cases hk : k = pid
    · subst hk
      simp only [invAdd, eq_self_iff_true, if_true]
      rw [lookup_cons_self, lookup_cons_self]
      simp
    · have hk' : pid ≠ k := fun hh => hk hh.symm
      simp only [invAdd, if_neg hk]
      rw [lookup_cons_ne _ _ _ _ hk', lookup_cons_ne _ _ _ _ hk']
      exact ih

theorem invAdd_lookup_ne (pid q : Nat) (price : Rat) (inv : List (Nat × InventoryItem))
    (p' : Nat) (h : p' ≠ pid) :
    List.lookup p' (invAdd pid q price inv) = List.lookup p' inv := by
  induction inv with
  | nil =>
    simp only [invAdd]
    rw [lookup_cons_ne _ _ _ _ h]
  | cons e rest ih =>
    obtain ⟨k, item⟩ := e
    by_cases hk : k = pid
    · subst hk
      simp only [invAdd, eq_self_iff_true, if_true]
      rw [lookup_cons_ne _ _ _ _ h, lookup_cons_ne _ _ _ _ h]
    · by_cases hpk : p' = k
      · subst hpk
        simp only [invAdd, if_neg hk]
        rw [lookup_cons_self, lookup_cons_self]
      · simp only [invAdd, if_neg hk]
        rw [lookup_cons_ne _ _ _ _ hpk, lookup_cons_ne _ _ _ _ hpk]
        exact ih

theorem add_inventory_quantity_self (s : Store) (pid q : Nat) (price : Rat) :
    (s.add_inventory pid q price).get_quantity pid = s.get_quantity pid + q := by
  unfold Store.add_inventory Store.get_quantity
  exact invAdd_quantity_self pid q price s.inventory

theorem add_inventory_quantity_zero (s : Store) (pid : Nat) (price : Rat) (p' : Nat) :
    (s.add_inventory pid 0 price).get_quantity p' = s.get_quantity p' := by
  by_cases h : p' = pid
  · subst h
    rw [add_inventory_quantity_self]
    omega
  · unfold Store.add_inventory Store.get_quantity
    rw [invAdd_lookup_ne pid 0 price s.inventory p' h]

theorem getElem?_set_self {α : Type} (l : List α) (n : Nat) (a : α) (h : n < l.length) :
    (l.set n a)[n]? = some a := by
  induction l generalizing n with
  | nil => simp at h
  | cons x xs ih =>
    cases n with
    | zero => simp [List.set]
    | succ m =>
      simp only [List.set, List.getElem?_cons_succ]
      exact ih m (by simpa using h)

theorem payFirst_find (loan_id : Nat) (amount : Rat) (loans : List Loan) (l : Loan)
    (h : loans.find? (fun x => x.id == loan_id) = some l) :
    ∃ loans', payFirst loan_id amount loans = some (min amount l.balance, loans') ∧
      loans'.find? (fun x => x.id == loan_id) =
        some { l with balance := l.balance - min amount l.balance } := by
  induction loans with
  | nil => simp [List.find?] at h
  | cons l0 rest ih =>
    by_cases hid : l0.id = loan_id
    · rw [List.find?_cons_of_pos _ (by simp [hid])] at h
      have hl : l0 = l := by injection h
      subst hl
      refine ⟨{ l0 with balance := l0.balance - min amount l0.balance } :: rest, ?_, ?_⟩
      · simp [payFirst, hid, Loan.make_payment]
      · exact List.find?_cons_of_pos _ (by simp [hid])
    · rw [List.find?_cons_of_neg _ (by simp [hid])] at h
      obtain ⟨loans', h1, h2⟩ := ih h
      refine ⟨l0 :: loans', ?_, ?_⟩
      · simp [payFirst, hid, h1]
      · rw [List.find?_cons_of_neg _ (by simp [hid])]
        exact h2

/-- C10: for every loan present in the ledger and every `amount ≥ 0`, with
`cash ≥ 0`, `Player::make_loan_payment` pays exactly
`min(amount, cash, balance)`: cash and the loan's balance both decrease by
that amount, cash stays nonnegative, and a nonnegative balance stays
nonnegative. -/
theorem claim10_make_loan_payment (p : Player) (loan_id : Nat) (amount : Rat) (l : Loan)
    (hamt : 0 ≤ amount) (hcash : 0 ≤ p.cash) (hloan : p.get_loan loan_id = some l) :
    (p.make_loan_payment loan_id amount).1 = some (min amount (min p.cash l.balance)) ∧
    (p.make_loan_payment loan_id amount).2.cash =
      p.cash - min amount (min p.cash l.balance) ∧
    0 ≤ (p.make_loan_payment loan_id amount).2.cash ∧
    (p.make_loan_payment loan_id amount).2.get_loan loan_id =
      some { l with balance := l.balance - min amount (min p.cash l.balance) } ∧
    (0 ≤ l.balance → 0 ≤ l.balance - min amount (min p.cash l.balance)) := by
  obtain ⟨loans', h1, h2⟩ := payFirst_find loan_id (min amount p.cash) p.loans l hloan
  have hmin : min (min amount p.cash) l.balance = min amount (min p.cash l.balance) :=
    min_assoc amount p.cash l.balance
  rw [hmin] at h1 h2
  have hpaid_cash : min amount (min p.cash l.balance) ≤ p.cash := by
    rw [← hmin]; exact le_trans (min_le_left _ _) (min_le_right _ _)
  have hpaid_bal : min amount (min p.cash l.balance) ≤ l.balance := by
    rw [← hmin]; exact min_le_right _ _
  have hrun : p.make_loan_payment loan_id amount =
      (some (min amount (min p.cash l.balance)),
       { p with cash := p.cash - min amount (min p.cash l.balance), loans := loans' }) := by
    simp only [Player.make_loan_payment, h1]
  rw [hrun]
  refine ⟨rfl, rfl, ?_, ?_, ?_⟩
  · dsimp only
    linarith
  · simp only [Player.get_loan]
    exact h2
  · intro hb; linarith

/-- C10 witness: a $50 payment on a $1000 flexible loan with $100 cash pays
exactly $50. -/
theorem claim10_make_loan_payment_witness :
    (0 : Rat) ≤ 50 ∧
    0 ≤ ({ playerEx with loans := [Loan.new_flexible 1 1000 0.08] } : Player).cash ∧
    ({ playerEx with loans := [Loan.new_flexible 1 1000 0.08] } : Player).get_loan 1 =
      some (Loan.new_flexible 1 1000 0.08) ∧
    (({ playerEx with loans := [Loan.new_flexible 1 1000 0.08] } : Player).make_loan_payment
        1 50).1 =
      some (min 50 (min ({ playerEx with
        loans := [Loan.new_flexible 1 1000 0.08] } : Player).cash
        (Loan.new_flexible 1 1000 0.08).balance)) :=
  ⟨by norm_num, by norm_num [playerEx],
   by simp [Player.get_loan, playerEx, Loan.new_flexible, List.find?],
   (claim10_make_loan_payment { playerEx with loans := [Loan.new_flexible 1 1000 0.08] }
     1 50 (Loan.new_flexible 1 1000 0.08) (by norm_num) (by norm_num [playerEx])
     (by simp [Player.get_loan, playerEx, Loan.new_flexible, List.find?])).1⟩

/-- C8: every successful `buy_inventory(product_id, q)` at wholesale price `w`
costs exactly `q*w`: cash decreases by `q*w` and the current store's quantity
of that product increases by exactly `q` (accumulating onto any existing
stock, never overwriting it). -/
theorem claim8_buy_inventory_conservation (g : GameState) (product_id quantity : Nat)
    (h : (g.buy_inventory product_id quantity).isOk = true) :
    ∃ wholesale_price store g',
      g.market.get_wholesale_price product_id = some wholesale_price ∧
      g.player.stores[g.current_store]? = some store ∧
      g.buy_inventory product_id quantity =
        Except.ok (wholesale_price * (quantity : Rat), g') ∧
      g'.player.cash = g.player.cash - wholesale_price * (quantity : Rat) ∧
      (g'.player.stores[g.current_store]?).map (fun s => s.get_quantity product_id) =
        some (store.get_quantity product_id + quantity) := by
  by_cases hp : (g.get_product product_id).isNone
  · exact absurd h (by simp [GameState.buy_inventory, hp, Except.isOk, Except.toBool])
  cases hw : g.market.get_wholesale_price product_id with
  | none => exact absurd h (by simp [GameState.buy_inventory, hp, hw, Except.isOk, Except.toBool])
  | some w =>
    by_cases hc : g.player.cash < w * (quantity : Rat)
    · exact absurd h (by simp [GameState.buy_inventory, hp, hw, hc, Except.isOk, Except.toBool])
    cases hs : g.player.stores[g.current_store]? with
    | none => exact absurd h (by simp [GameState.buy_inventory, hp, hw, hc, hs, Except.isOk, Except.toBool])
    | some st =>
      have hlt : g.current_store < g.player.stores.length := by
        by_contra hge
        rw [List.getElem?_eq_none (le_of_not_lt hge)] at hs
        cases hs
      have hrun : g.buy_inventory product_id quantity =
          Except.ok (w * (quantity : Rat),
            { g with player := { g.player with
                cash := g.player.cash - w * (quantity : Rat),
                stores := g.player.stores.set g.current_store
                  (st.add_inventory product_id quantity
                    (Market.suggest_retail_price w 50)) } }) := by
        simp [GameState.buy_inventory, hp, hw, hc, hs]
      refine ⟨w, st, _, rfl, rfl, hrun, rfl, ?_⟩
      dsimp only
      rw [getElem?_set_self _ _ _ hlt]
      rw [Option.map_some']
      rw [add_inventory_quantity_self]

/-- C8 witness: buying 5 Bread (wholesale $2) from the fresh example state. -/
theorem claim8_buy_inventory_conservation_witness :
    (gEx.buy_inventory 1 5).isOk = true ∧
    (∃ wholesale_price store g',
      gEx.market.get_wholesale_price 1 = some wholesale_price ∧
      gEx.player.stores[gEx.current_store]? = some store ∧
      gEx.buy_inventory 1 5 =
        Except.ok (wholesale_price * ((5 : Nat) : Rat), g') ∧
      g'.player.cash = gEx.player.cash - wholesale_price * ((5 : Nat) : Rat) ∧
      (g'.player.stores[gEx.current_store]?).map (fun s => s.get_quantity 1) =
        some (store.get_quantity 1 + 5)) := by
  have hok : (gEx.buy_inventory 1 5).isOk = true := by
    simp [GameState.buy_inventory, gEx, playerEx, storeEx, marketEx, productsEx, breadEx,
      Market.get_wholesale_price, GameState.get_product, List.lookup,
      EconomicState.price_multiplier, List.find?, Except.isOk, Except.toBool]
    norm_num
  exact ⟨hok, claim8_buy_inventory_conservation gEx 1 5 hok⟩

/-- C9 counterexample: `buy_inventory(1, 0)` on a store with an empty
inventory is *not* rejected — it returns `Ok` with cost $0 — and it mutates
the store's inventory map by inserting a zero-quantity record for product 1
(cash stays unchanged). -/
theorem claim9_counterexample :
    (g9.buy_inventory 1 0).isOk = true ∧
    ((g9.buy_inventory 1 0).toOption.map (fun out => out.2.player.cash)) = some 100 ∧
    ((g9.buy_inventory 1 0).toOption.map
        (fun out => out.2.player.stores.map (fun s => s.inventory.map Prod.fst))) =
      some [[1]] ∧
    g9.player.stores.map (fun s => s.inventory) = [[]] := by
  have hrun : g9.buy_inventory 1 0 =
      Except.ok (0, { g9 with player := { g9.player with
        cash := g9.player.cash - 0,
        stores := g9.player.stores.set 0
          ((Store.new 1 "Empty").add_inventory 1 0
            (Market.suggest_retail_price (2 * (1.0 : Rat)) 50)) } }) := by
    simp [GameState.buy_inventory, g9, gEx, playerEx, marketEx, productsEx, breadEx,
      Market.get_wholesale_price, GameState.get_product, List.lookup,
      EconomicState.price_multiplier, List.find?]
    try norm_num
  rw [hrun]
  refine ⟨rfl, ?_, ?_, ?_⟩
  · simp only [Except.toOption, Option.map_some']
    norm_num [g9, gEx, playerEx]
  · simp only [Except.toOption, Option.map_some']
    simp [g9, gEx, playerEx, Store.new, Store.add_inventory, invAdd, List.set]
  · simp [g9, gEx, playerEx, Store.new]

/-- C9 (amended): a zero-quantity `buy_inventory` call on a catalog product
with a known wholesale price and nonnegative cash is *accepted* (cost $0),
leaves cash unchanged and leaves every product's stocked quantity unchanged;
its only side effect is that a zero-quantity inventory record may be
inserted for a previously unstocked product (the counterexample exhibits
it). The zero-quantity rejection exists only in the CLI cart layer (ui.rs),
not in `GameState::buy_inventory`. -/
theorem claim9_zero_quantity_accepted (g : GameState) (product_id : Nat)
    (hp : (g.get_product product_id).isSome = true)
    (hw : (g.market.get_wholesale_price product_id).isSome = true)
    (hc : 0 ≤ g.player.cash)
    (hs : (g.player.stores[g.current_store]?).isSome = true) :
    ∃ g', g.buy_inventory product_id 0 = Except.ok (0, g') ∧
      g'.player.cash = g.player.cash ∧
      ∀ p', (g'.player.stores[g.current_store]?).map (fun s => s.get_quantity p') =
        (g.player.stores[g.current_store]?).map (fun s => s.get_quantity p') := by
  obtain ⟨w, hw'⟩ := Option.isSome_iff_exists.mp hw
  obtain ⟨st, hs'⟩ := Option.isSome_iff_exists.mp hs
  have hp' : ¬ (g.get_product product_id).isNone = true := by
    rw [Option.isNone_iff_eq_none]
    intro hh
    rw [hh] at hp
    cases hp
  have hlt : g.current_store < g.player.stores.length := by
    by_contra hge
    rw [List.getElem?_eq_none (le_of_not_lt hge)] at hs'
    cases hs'
  have hrun : g.buy_inventory product_id 0 =
      Except.ok (0,
        { g with player := { g.player with
            stores := g.player.stores.set g.current_store
              (st.add_inventory product_id 0
                (Market.suggest_retail_price w 50)) } }) := by
    simp [GameState.buy_inventory, hp', hw', hs', not_lt.mpr hc]
  refine ⟨_, hrun, rfl, ?_⟩
  intro p'
  dsimp only
  rw [getElem?_set_self _ _ _ hlt, hs']
  rw [Option.map_some', Option.map_some']
  rw [add_inventory_quantity_zero]

/-- C9 witness: the amended statement applied to the concrete empty-store
state and product 1. -/
theorem claim9_zero_quantity_accepted_witness :
    (g9.get_product 1).isSome = true ∧
    (g9.market.get_wholesale_price 1).isSome = true ∧
    0 ≤ g9.player.cash ∧
    (g9.player.stores[g9.current_store]?).isSome = true ∧
    (∃ g', g9.buy_inventory 1 0 = Except.ok (0, g') ∧
      g'.player.cash = g9.player.cash ∧
      ∀ p', (g'.player.stores[g9.current_store]?).map (fun s => s.get_quantity p') =
        (g9.player.stores[g9.current_store]?).map (fun s => s.get_quantity p')) := by
  have h1 : (g9.get_product 1).isSome = true := by
    simp [GameState.get_product, g9, gEx, productsEx, breadEx, List.find?]
  have h2 : (g9.market.get_wholesale_price 1).isSome = true := by
    simp [Market.get_wholesale_price, g9, gEx, marketEx, List.lookup]
  have h3 : (0 : Rat) ≤ g9.player.cash := by norm_num [g9, gEx, playerEx]
  have h4 : (g9.player.stores[g9.current_store]?).isSome = true := by
    simp [g9, gEx, playerEx]
  exact ⟨h1, h2, h3, h4, claim9_zero_quantity_accepted g9 1 h1 h2 h3 h4⟩

/-- C1: the day tick is a pure function of the game state — two identical
copies produce identical `DayResult`s — and the day's pseudo-randomness is
derived from the day number alone: `Market::advance_day` gives the same
outcome for any two markets that agree on prices, demand weights and
economic state, regardless of their previous `day_seed` and trend (the seed
is overwritten from the day number before any draw). -/
theorem claim1_day_tick_deterministic :
    (∀ (s₁ s₂ : GameState) (trend : Rat), s₁ = s₂ →
      s₁.advance_day trend = s₂.advance_day trend) ∧
    (∀ (m₁ m₂ : Market) (day : Nat) (trend : Rat),
      m₁.wholesale_prices = m₂.wholesale_prices →
      m₁.category_demand = m₂.category_demand →
      m₁.economic_state = m₂.economic_state →
      m₁.advance_day day trend = m₂.advance_day day trend) := by
  constructor
  · intro s₁ s₂ trend h
    rw [h]
  · intro m₁ m₂ day trend hw hc he
    cases m₁
    cases m₂
    simp only [Market.mk.injEq] at hw hc he ⊢
    subst hw
    subst hc
    subst he
    rfl

/-- Evaluation of the day tick on the minimal single-loan state: with no
stores, factories or competitors, the tick reduces to the loan pipeline
(accrual, line-of-credit pass, term-loan countdown, due handling, cleanup).
The day-3 economy roll is 0.2364, so the Standard economy persists. -/
theorem advance_day_loanState (cash : Rat) (l : Loan) :
    (loanStateEx cash l).advance_day 0 =
      (let p0 : Player := { cash := cash, stores := [], factories := [], loans := [l],
                            holdings := [], next_store_id := 2, next_factory_id := 1,
                            next_loan_id := 2 }
       let loanStep := loanPipeline p0
       ({ total_revenue := 0, total_items_sold := 0, sales_by_product := [],
          total_expenses := 0, expenses_by_store := [], expenses_by_factory := [],
          production_completed := [], net_profit := 0 - 0 - loanStep.2.1,
          economic_state := EconomicState.Standard, economic_change := none,
          loan_interest_accrued := loanStep.2.1,
          loan_payments := loanStep.2.2.1, loans_due := loanStep.2.2.2.1,
          loans_due_soon := loanStep.2.2.2.2.1,
          term_loan_penalties := loanStep.2.2.2.2.2,
          auto_transfers := [], competitor_events := [], player_market_share := 0.5 },
        { day := 4, player := loanStep.1,
          market := { marketEx with day_seed := 94053 },
          competitive_market := { competitors := [], total_market_size := 500,
                                  player_market_share := 0.5 },
          products := productsEx, recipes := [], current_store := 0,
          current_factory := none,
          is_bankrupt := if loanStep.1.cash < 0 then true else false })) := by
  simp only [GameState.advance_day, loanStateEx]
  norm_num [Market.advance_day, Market.update_economy, Market.get_random_value, U64MOD,
    marketEx]
  norm_num [GameState.calculate_average_markup, CompetitiveMarket.calculate_market_shares,
    CompetitiveMarket.player_customer_multiplier, CompetitiveMarket.advance_day,
    competitorsPass, cmEmpty, fclamp, EconomicState.sales_multiplier]
  norm_num [storePass, factoryPass, productsEx]

/-- The line-of-credit pass on a single-loan ledger: the loan is charged
`min(auto_payment, max(cash, 0))` — the full auto-payment when affordable,
otherwise whatever nonnegative cash remains (possibly nothing). -/
theorem locPass_loc_single (p : Player) (l : Loan)
    (hl : p.loans = [l]) (hty : l.loan_type = LoanType.LineOfCredit)
    (hpos : 0 < l.get_auto_payment) (hle : l.get_auto_payment ≤ l.balance) :
    locPass p [l.id] =
      ({ p with cash := p.cash - min l.get_auto_payment (max p.cash 0),
                loans := [{ l with
                  balance := l.balance - min l.get_auto_payment (max p.cash 0) }] },
       if 0 < min l.get_auto_payment (max p.cash 0) then
         [(l.id, min l.get_auto_payment (max p.cash 0))]
       else []) := by
  have hget : p.get_loan l.id = some l := by
    simp [Player.get_loan, hl, List.find?]
  by_cases hca : l.get_auto_payment ≤ p.cash
  · have hcash0 : 0 ≤ p.cash := le_trans hpos.le hca
    have hpaid : min l.get_auto_payment (max p.cash 0) = l.get_auto_payment := by
      rw [max_eq_left hcash0]
      exact min_eq_left hca
    have hmlp : p.make_loan_payment l.id l.get_auto_payment =
        (some l.get_auto_payment,
         { p with cash := p.cash - l.get_auto_payment,
                  loans := [{ l with balance := l.balance - l.get_auto_payment }] }) := by
      simp only [Player.make_loan_payment, min_eq_left hca, hl, payFirst,
        eq_self_iff_true, if_true, Loan.make_payment, min_eq_left hle]
    rw [hpaid]
    simp only [locPass, hget, hty, eq_self_iff_true, if_true]
    rw [if_pos (show 0 < l.get_auto_payment ∧ l.get_auto_payment ≤ p.cash from
      ⟨hpos, hca⟩)]
    simp only [hmlp, locPass, hty]
    rw [if_pos hpos]
  · have hcond : ¬ (0 < l.get_auto_payment ∧ l.get_auto_payment ≤ p.cash) :=
      fun hand => hca hand.2
    by_cases hc0 : 0 < p.cash
    · have hlt : p.cash < l.get_auto_payment := not_le.mp hca
      have hpaid : min l.get_auto_payment (max p.cash 0) = p.cash := by
        rw [max_eq_left hc0.le]
        exact min_eq_right hlt.le
      have havail : max p.cash 0 = p.cash := max_eq_left hc0.le
      have hmlp : p.make_loan_payment l.id p.cash =
          (some p.cash,
           { p with cash := p.cash - p.cash,
                    loans := [{ l with balance := l.balance - p.cash }] }) := by
        simp only [Player.make_loan_payment, min_self, hl, payFirst, eq_self_iff_true,
          if_true, Loan.make_payment, min_eq_left (le_of_lt (lt_of_lt_of_le hlt hle))]
      rw [hpaid]
      simp only [locPass, hget, hty, eq_self_iff_true, if_true]
      rw [if_neg hcond, if_pos hpos, havail, if_pos hc0]
      simp only [hmlp, locPass, hty]
      rw [if_pos hc0]
    · have hmax : max p.cash 0 = 0 := max_eq_right (le_of_not_lt hc0)
      have hpaid : min l.get_auto_payment (max p.cash 0) = 0 := by
        rw [hmax]
        exact min_eq_right hpos.le
      rw [hpaid]
      simp only [locPass, hget, hty, eq_self_iff_true, if_true]
      rw [if_neg hcond, if_pos hpos, hmax, if_neg (lt_irrefl 0), if_neg (lt_irrefl 0)]
      obtain ⟨pc, ps, pf, pl, ph, n1, n2, n3⟩ := p
      simp only at hl
      subst hl
      obtain ⟨li, lt', lp, lb, lr, ld, lpay⟩ := l
      simp
      exact hty

/-- C7: on every `advance_day`, a line-of-credit loan is auto-charged
`max(2% of its current (post-accrual) balance, $10)`, capped at the
remaining balance; when cash is below that amount only the remaining cash
(possibly $0, if cash is already exhausted) is paid, and the tick still
completes, returning the updated state (sub-cent balances are then purged
by the standard cleanup). `paid = min(auto_payment, max(cash, 0))`. -/
theorem claim7_line_of_credit_autopay (cash balance rate : Rat)
    (hr : 0 ≤ rate) (hb : 0 < balance) :
    (let b' := balance + balance * (rate / 365)
     let auto_payment := min (max (b' * 0.02) 10) b'
     let paid := min auto_payment (max cash 0)
     let out := (locStateEx cash balance rate).advance_day 0
     out.2.player.cash = cash - paid ∧
     (0 < paid → out.1.loan_payments = [(1, paid)]) ∧
     (paid ≤ 0 → out.1.loan_payments = []) ∧
     (0.01 ≤ b' - paid → out.2.player.loans =
       [{ id := 1, loan_type := LoanType.LineOfCredit, principal := balance,
          balance := b' - paid, interest_rate := rate, days_remaining := none,
          daily_payment := max (balance * 0.02) 10 }]) ∧
     (b' - paid < 0.01 → out.2.player.loans = [])) := by
  have hb' : 0 < balance + balance * (rate / 365) := by
    have h1 : 0 ≤ balance * (rate / 365) :=
      mul_nonneg hb.le (div_nonneg hr (by norm_num))
    linarith
  have hauto_pos : 0 < min (max ((balance + balance * (rate / 365)) * 0.02) 10)
      (balance + balance * (rate / 365)) :=
    lt_min (lt_of_lt_of_le (by norm_num) (le_max_right _ _)) hb'
  have hauto_le : min (max ((balance + balance * (rate / 365)) * 0.02) 10)
      (balance + balance * (rate / 365)) ≤ balance + balance * (rate / 365) :=
    min_le_right _ _
  have hloc : locPass
      { cash := cash, stores := [], factories := [],
        loans := [{ id := 1, loan_type := LoanType.LineOfCredit, principal := balance,
                    balance := balance + balance * (rate / 365), interest_rate := rate,
                    days_remaining := none, daily_payment := max (balance * 0.02) 10 }],
        holdings := [], next_store_id := 2, next_factory_id := 1, next_loan_id := 2 }
      [1] =
      ({ cash := cash - min (min (max ((balance + balance * (rate / 365)) * 0.02) 10)
             (balance + balance * (rate / 365))) (max cash 0),
         stores := [], factories := [],
         loans := [{ id := 1, loan_type := LoanType.LineOfCredit, principal := balance,
                     balance := balance + balance * (rate / 365) -
                       min (min (max ((balance + balance * (rate / 365)) * 0.02) 10)
                         (balance + balance * (rate / 365))) (max cash 0),
                     interest_rate := rate, days_remaining := none,
                     daily_payment := max (balance * 0.02) 10 }],
         holdings := [], next_store_id := 2, next_factory_id := 1, next_loan_id := 2 },
       if 0 < min (min (max ((balance + balance * (rate / 365)) * 0.02) 10)
           (balance + balance * (rate / 365))) (max cash 0) then
         [(1, min (min (max ((balance + balance * (rate / 365)) * 0.02) 10)
            (balance + balance * (rate / 365))) (max cash 0))]
       else []) :=
    locPass_loc_single _
      { id := 1, loan_type := LoanType.LineOfCredit, principal := balance,
        balance := balance + balance * (rate / 365), interest_rate := rate,
        days_remaining := none, daily_payment := max (balance * 0.02) 10 }
      rfl rfl hauto_pos hauto_le
  simp only [locStateEx]
  rw [advance_day_loanState]
  simp only [loanPipeline, accrueAll, Loan.accrue_interest, Loan.daily_rate, List.map, add_zero]
  rw [hloc]
  simp only [List.filter, List.filterMap, List.map, duePass, Player.cleanup_loans,
    Loan.is_due, Loan.is_due_soon, Loan.decrement_days, Loan.is_paid_off]
  refine ⟨trivial, fun hp => if_pos hp, fun hp => if_neg (not_lt.mpr hp),
    fun hp => ?_, fun hp => ?_⟩
  · simp [not_lt.mpr hp]
  · simp [hp]

theorem claim7_line_of_credit_autopay_witness :
    ((0:Rat) ≤ 0 ∧ (0:Rat) < 1000) ∧
    (let b' := (1000:Rat) + 1000 * (0 / 365)
     let auto_payment := min (max (b' * 0.02) 10) b'
     let paid := min auto_payment (max (100:Rat) 0)
     let out := (locStateEx 100 1000 0).advance_day 0
     out.2.player.cash = 100 - paid ∧
     (0 < paid → out.1.loan_payments = [(1, paid)]) ∧
     (paid ≤ 0 → out.1.loan_payments = []) ∧
     (0.01 ≤ b' - paid → out.2.player.loans =
       [{ id := 1, loan_type := LoanType.LineOfCredit, principal := 1000,
          balance := b' - paid, interest_rate := 0, days_remaining := none,
          daily_payment := max (1000 * 0.02) 10 }]) ∧
     (b' - paid < 0.01 → out.2.player.loans = [])) :=
  ⟨⟨le_refl 0, by norm_num⟩,
   claim7_line_of_credit_autopay 100 1000 0 (le_refl 0) (by norm_num)⟩

/-- C6 (amended): for a single term loan, the loan becomes due exactly when
its countdown hits 0 during the tick (a loan with 2 or more days left is not
due this day). When due with cash ≥ balance it is auto-paid in full and the
zero-balance entry is removed; with cash < balance all nonnegative cash is
paid, a penalty of 25% of the PRE-payment (post-accrual) balance b' is added,
and the loan survives only if the resulting balance is at least $0.01 —
otherwise the sub-cent cleanup writes it off despite the default. -/
theorem claim6_term_loan_due (cash balance rate : Rat) (d : Nat)
    (hc : 0 ≤ cash) (hb : 0 < balance) (hr : 0 ≤ rate) :
    (let b' := balance + balance * (rate / 365)
     let out := (termStateEx cash balance rate 1).advance_day 0
     out.1.loans_due = [(1, b')] ∧
     (b' ≤ cash →
       out.2.player.cash = cash - b' ∧
       out.1.term_loan_penalties = 0 ∧
       out.2.player.loans = []) ∧
     (cash < b' →
       out.1.term_loan_penalties = b' * 0.25 ∧
       out.2.player.cash = 0 ∧
       (0.01 ≤ b' - cash + b' * 0.25 →
         out.2.player.loans =
           [{ id := 1, loan_type := LoanType.TermLoan, principal := balance,
              balance := b' - cash + b' * 0.25, interest_rate := rate,
              days_remaining := some 0, daily_payment := 0 }]) ∧
       (b' - cash + b' * 0.25 < 0.01 → out.2.player.loans = []))) ∧
    (let out2 := (termStateEx cash balance rate (d + 2)).advance_day 0
     out2.1.loans_due = [] ∧ out2.1.term_loan_penalties = 0) := by
  constructor
  · have hloc6 : locPass
        { cash := cash, stores := [], factories := [],
          loans := [{ id := 1, loan_type := LoanType.TermLoan, principal := balance,
                      balance := balance + balance * (rate / 365), interest_rate := rate,
                      days_remaining := some 1, daily_payment := 0 }],
          holdings := [], next_store_id := 2, next_factory_id := 1, next_loan_id := 2 }
        [1] =
        ({ cash := cash, stores := [], factories := [],
           loans := [{ id := 1, loan_type := LoanType.TermLoan, principal := balance,
                       balance := balance + balance * (rate / 365), interest_rate := rate,
                       days_remaining := some 1, daily_payment := 0 }],
           holdings := [], next_store_id := 2, next_factory_id := 1, next_loan_id := 2 },
         []) := by
      simp [locPass, Player.get_loan, List.find?]
    simp only [termStateEx]
    rw [advance_day_loanState]
    simp only [loanPipeline, accrueAll, Loan.accrue_interest, Loan.daily_rate, List.map,
      add_zero]
    rw [hloc6]
    simp only [List.map, Loan.decrement_days, Option.map, Loan.is_due, List.filter,
      Loan.is_due_soon, List.filterMap, duePass, Player.cleanup_loans, Loan.is_paid_off,
      Loan.default_penalty, Loan.TERM_LOAN_PENALTY, Player.get_loan, List.find?,
      addPenaltyFirst, Player.make_loan_payment, payFirst, Loan.make_payment,
      if_true, eq_self_iff_true, zero_lt_one, Nat.sub_self, Option.some.injEq,
      decide_True, Option.getD, min_self, beq_self_eq_true]
    refine ⟨trivial, fun hpay => ?_, fun hlt => ?_⟩
    · rw [if_pos hpay]
      norm_num [min_eq_left hpay, Loan.is_paid_off]
    · rw [if_neg (not_le.mpr hlt)]
      rw [max_eq_left hc]
      by_cases hc0 : 0 < cash
      · rw [if_pos hc0]
        norm_num [min_eq_left hlt.le, addPenaltyFirst, Loan.is_due_soon]
      · rw [if_neg hc0]
        have hceq : cash = 0 := le_antisymm (not_lt.mp hc0) hc
        subst hceq
        norm_num [addPenaltyFirst, Loan.is_due_soon]
  · have hloc6b : locPass
        { cash := cash, stores := [], factories := [],
          loans := [{ id := 1, loan_type := LoanType.TermLoan, principal := balance,
                      balance := balance + balance * (rate / 365), interest_rate := rate,
                      days_remaining := some (d + 2), daily_payment := 0 }],
          holdings := [], next_store_id := 2, next_factory_id := 1, next_loan_id := 2 }
        [1] =
        ({ cash := cash, stores := [], factories := [],
           loans := [{ id := 1, loan_type := LoanType.TermLoan, principal := balance,
                       balance := balance + balance * (rate / 365), interest_rate := rate,
                       days_remaining := some (d + 2), daily_payment := 0 }],
           holdings := [], next_store_id := 2, next_factory_id := 1, next_loan_id := 2 },
         []) := by
      simp [locPass, Player.get_loan, List.find?]
    simp only [termStateEx]
    rw [advance_day_loanState]
    simp only [loanPipeline, accrueAll, Loan.accrue_interest, Loan.daily_rate, List.map,
      add_zero]
    rw [hloc6b]
    have h02 : 0 < d + 2 := by omega
    have hne0 : ¬ (d + 2 - 1 = 0) := by omega
    simp only [List.map, Loan.decrement_days, Option.map, Loan.is_due, List.filter,
      duePass, if_true, eq_self_iff_true, Option.some.injEq, decide_True, h02, hne0,
      decide_False]
    exact ⟨trivial, trivial⟩

/-- C6 counterexample to "the loan remains in the ledger (it is not written
off)": a term loan of $0.03 at 1% APR due with only $0.028 cash defaults
(cash < balance, the 25% penalty is charged), yet the post-penalty balance
0.0095... is below the $0.01 cleanup threshold, so the loan is purged from
the ledger in the very same tick. -/
theorem claim6_counterexample :
    (let out := (termStateEx (28/1000) (3/100) (1/100) 1).advance_day 0
     out.1.loans_due = [(1, 109503/3650000)] ∧
     (28/1000 : Rat) < 109503/3650000 ∧
     out.1.term_loan_penalties = 109503/14600000 ∧
     out.2.player.loans = []) := by
  have hloc6c : locPass
      { cash := 28/1000, stores := [], factories := [],
        loans := [{ id := 1, loan_type := LoanType.TermLoan, principal := 3/100,
                    balance := 3/100 + 3/100 * (1/100 / 365), interest_rate := 1/100,
                    days_remaining := some 1, daily_payment := 0 }],
        holdings := [], next_store_id := 2, next_factory_id := 1, next_loan_id := 2 }
      [1] =
      ({ cash := 28/1000, stores := [], factories := [],
         loans := [{ id := 1, loan_type := LoanType.TermLoan, principal := 3/100,
                     balance := 3/100 + 3/100 * (1/100 / 365), interest_rate := 1/100,
                     days_remaining := some 1, daily_payment := 0 }],
         holdings := [], next_store_id := 2, next_factory_id := 1, next_loan_id := 2 },
       []) := by
    simp [locPass, Player.get_loan, List.find?]
  simp only [termStateEx]
  rw [advance_day_loanState]
  simp only [loanPipeline, accrueAll, Loan.accrue_interest, Loan.daily_rate, List.map,
    add_zero]
  rw [hloc6c]
  simp only [List.map, Loan.decrement_days, Option.map, Loan.is_due, List.filter,
    Loan.is_due_soon, List.filterMap, duePass, Player.cleanup_loans, Loan.is_paid_off,
    Loan.default_penalty, Loan.TERM_LOAN_PENALTY, Player.get_loan, List.find?,
    addPenaltyFirst, Player.make_loan_payment, payFirst, Loan.make_payment,
    if_true, eq_self_iff_true, zero_lt_one, Nat.sub_self, Option.some.injEq,
    decide_True, Option.getD, min_self, beq_self_eq_true]
  rw [if_neg (show ¬((3:ℚ)/100 + 3/100 * (1/100 / 365) ≤ 28/1000) from by norm_num)]
  rw [max_eq_left (show (0:ℚ) ≤ 28/1000 from by norm_num)]
  rw [if_pos (show (0:ℚ) < 28/1000 from by norm_num)]
  norm_num [addPenaltyFirst]

theorem claim6_term_loan_due_witness :
    ((0:Rat) ≤ 0 ∧ (0:Rat) < 100 ∧ (0:Rat) ≤ 0) ∧
    ((let b' := (100:Rat) + 100 * (0 / 365)
      let out := (termStateEx 0 100 0 1).advance_day 0
      out.1.loans_due = [(1, b')] ∧
      (b' ≤ 0 →
        out.2.player.cash = 0 - b' ∧
        out.1.term_loan_penalties = 0 ∧
        out.2.player.loans = []) ∧
      ((0:Rat) < b' →
        out.1.term_loan_penalties = b' * 0.25 ∧
        out.2.player.cash = 0 ∧
        (0.01 ≤ b' - 0 + b' * 0.25 →
          out.2.player.loans =
            [{ id := 1, loan_type := LoanType.TermLoan, principal := 100,
               balance := b' - 0 + b' * 0.25, interest_rate := 0,
               days_remaining := some 0, daily_payment := 0 }]) ∧
        (b' - 0 + b' * 0.25 < 0.01 → out.2.player.loans = []))) ∧
     (let out2 := (termStateEx 0 100 0 (5 + 2)).advance_day 0
      out2.1.loans_due = [] ∧ out2.1.term_loan_penalties = 0)) :=
  ⟨⟨le_refl 0, by norm_num, le_refl 0⟩,
   claim6_term_loan_due 0 100 0 5 (le_refl 0) (by norm_num) (le_refl 0)⟩

/-- The daily dividend a holding entry earns at the given stock market:
`shares * price * yield / 365` (0 for an unknown stock id). -/
def stockDividendOf (sm : StockMarket) (e : Nat × StockHolding) : Rat :=
  match sm.get_stock e.1 with
  | some stock => stock.daily_dividend * (e.2.shares : Rat)
  | none => 0

theorem distributeDividends_fst (sm : StockMarket) (hs : List (Nat × StockHolding)) :
    (distributeDividends sm hs).1 =
      hs.map (fun e => (e.1, e.2.receive_dividend (stockDividendOf sm e))) := by
  induction hs with
  | nil => rfl
  | cons e rest ih =>
    obtain ⟨stock_id, holding⟩ := e
    simp only [distributeDividends, List.map_cons, ih, stockDividendOf]

theorem distributeDividends_snd (sm : StockMarket) (hs : List (Nat × StockHolding)) :
    (distributeDividends sm hs).2 = (hs.map (stockDividendOf sm)).sum := by
  induction hs with
  | nil => rfl
  | cons e rest ih =>
    obtain ⟨stock_id, holding⟩ := e
    simp only [distributeDividends, List.map_cons, List.sum_cons, ih, stockDividendOf]

theorem zipWith_getElem? {α β γ : Type} (f : α → β → γ) :
    ∀ (as : List α) (bs : List β) (i : Nat),
      (List.zipWith f as bs)[i]? = Option.map₂ f as[i]? bs[i]? := by
  intro as
  induction as with
  | nil => intro bs i; simp [Option.map₂]
  | cons a as' ih =>
    intro bs i
    cases bs with
    | nil => simp [Option.map₂]
    | cons b bs' =>
      cases i with
      | zero => simp [Option.map₂]
      | succ m => simp [ih bs' m]

/-- C2 ("spec-modelled", see `GameState.advance_day_full`): the most
complete snapshot's day tick performs, as its step 8, a stock price update
for all stocks — each stock is rewritten by `Stock.update_price` with its
LCG draw (stock.rs) — plus a dividend distribution into every holder's
accumulator, and the day's total dividends are summed into the returned
report's `dividends_earned` field. -/
theorem claim2_stock_market_step (g : GameState) (sm : StockMarket) (trend : Rat) :
    ((g.advance_day_full sm trend).2.2 =
      (sm.advance_day ((g.advance_day trend).2).market.economic_state).1) ∧
    (∀ i : Nat,
      ((g.advance_day_full sm trend).2.2).stocks[i]? =
        Option.map₂
          (fun (stock : Stock) (random : Rat) =>
            (stock.update_price ((g.advance_day trend).2).market.economic_state random).2)
          sm.stocks[i]? ((genRandoms sm.random_state sm.stocks.length).1)[i]?) ∧
    ((g.advance_day_full sm trend).2.1.player.holdings =
      ((g.advance_day trend).2).player.holdings.map
        (fun e => (e.1, e.2.receive_dividend
          (stockDividendOf
            (sm.advance_day ((g.advance_day trend).2).market.economic_state).1 e)))) ∧
    ((g.advance_day_full sm trend).1.dividends_earned =
      (((g.advance_day trend).2).player.holdings.map
        (stockDividendOf
          (sm.advance_day ((g.advance_day trend).2).market.economic_state).1)).sum) := by
  refine ⟨rfl, ?_, ?_, ?_⟩
  · intro i
    show ((sm.advance_day ((g.advance_day trend).2).market.economic_state).1).stocks[i]? = _
    simp only [StockMarket.advance_day]
    rw [List.getElem?_map, zipWith_getElem?]
    cases sm.stocks[i]? <;>
      cases ((genRandoms sm.random_state sm.stocks.length).1)[i]? <;>
        simp [Option.map₂]
  · show (distributeDividends _ _).1 = _
    exact distributeDividends_fst _ _
  · show (distributeDividends _ _).2 = _
    exact distributeDividends_snd _ _

/-- C1 witness: the determinism statement applied to the concrete example
state, and seed-independence applied to two markets differing only in their
stale day seed. -/
theorem claim1_day_tick_deterministic_witness :
    gEx.advance_day 0 = gEx.advance_day 0 ∧
    marketEx.advance_day 2 0 = marketCx.advance_day 2 0 :=
  ⟨claim1_day_tick_deterministic.1 gEx gEx 0 rfl,
   claim1_day_tick_deterministic.2 marketEx marketCx 2 0 rfl rfl rfl⟩

end CapTycoon
